import Mathlib

/-!
# Network parameters and genesis verification (`chainparams.cpp`)

A shallow embedding of `src/chainparams.cpp`: the four static parameter
objects and their constructors, the current-parameters pointer with
`SelectParams` / `Params`, the unit-test setters, and `VerifyGenesisBlock`.

Machine integers are natural numbers or integers; where the source relies on
32-bit wrap-around the remainder modulo `2^32` is written out. Code that the
translation unit only includes (hashing, block serialisation, the seed
tables, the clock and the random generator) is gathered in the record
`Platform` and passed as a parameter.
-/

namespace ChainParams

/-! ## Bytes and primitive encodings -/

/-- One octet, the `unsigned char` of the source. -/
abbrev Byte := Fin 256

/-- The 256-bit unsigned integer type `uint256`, kept as a natural number. -/
abbrev uint256 := Nat

/-- The four message-start bytes `pchMessageStart[0..3]`
(`MESSAGE_START_SIZE` is 4). -/
structure MessageStart where
  b0 : Byte
  b1 : Byte
  b2 : Byte
  b3 : Byte
  deriving DecidableEq, Repr, Inhabited

/-- The array read in index order. -/
def MessageStart.bytes (m : MessageStart) : List Byte := [m.b0, m.b1, m.b2, m.b3]

/-- Lower-case hexadecimal digit of a value below 16. -/
def hexDigit (n : Nat) : Char :=
  if n < 10 then Char.ofNat (48 + n) else Char.ofNat (87 + n)

/-- The text `HexStr(buf, buf + n)`: two lower-case hexadecimal digits per byte. -/
def HexStr (buf : List Byte) : String :=
  String.mk (buf.flatMap fun b => [hexDigit (b.val / 16), hexDigit (b.val % 16)])

/-- The `k` least significant hexadecimal digits of `n`, most significant first. -/
def hexFixed : Nat → Nat → List Char
  | 0, _ => []
  | k + 1, n => hexFixed k (n / 16) ++ [hexDigit (n % 16)]

/-- The text `uint256::ToString()`: 64 hexadecimal digits, most significant first. -/
def uint256.ToString (h : uint256) : String := String.mk (hexFixed 64 h)

/-- The value of four bytes read as a little-endian unsigned 32-bit integer,
which is how `filein >> nSize` fills an `unsigned int`. -/
def ReadLE32 (l0 l1 l2 l3 : Byte) : Nat :=
  l0.val + 256 * l1.val + 65536 * l2.val + 16777216 * l3.val

/-! ## Blocks -/

/-- One push onto a script built with `CScript() << ...`. -/
inductive ScriptPush where
  | int (n : Int)
  | scriptNum (n : Int)
  | data (bytes : String)
  deriving DecidableEq, Repr

/-- A transaction input; only the script is assigned by this file. -/
structure CTxIn where
  scriptSig : List ScriptPush
  deriving DecidableEq, Repr

/-- A transaction output. `SetEmpty()` gives value 0 and an empty script. -/
structure CTxOut where
  nValue : Int
  scriptPubKey : List ScriptPush
  deriving DecidableEq, Repr

/-- A transaction under construction (`CMutableTransaction`). -/
structure CMutableTransaction where
  vin : List CTxIn
  vout : List CTxOut
  deriving DecidableEq, Repr

/-- A block: the six header fields and the transactions. `nTime`, `nBits`
and `nNonce` are unsigned 32-bit in the source. -/
structure CBlock where
  nVersion : Int
  hashPrevBlock : uint256
  hashMerkleRoot : uint256
  nTime : Nat
  nBits : Nat
  nNonce : Nat
  vtx : List CMutableTransaction
  deriving DecidableEq, Repr, Inhabited

/-! ## Collaborators outside this translation unit -/

/-- The networks of `CBaseChainParams::Network`, with the end marker
`MAX_NETWORK_TYPES` that `SelectParamsFromCommandLine` tests for. -/
inductive Network where
  | MAIN
  | TESTNET
  | REGTEST
  | UNITTEST
  | MAX_NETWORK_TYPES
  deriving DecidableEq, Repr, Inhabited

/-- An entry of a compiled-in seed table. -/
structure SeedSpec6 where
  addr : List Byte
  port : Nat
  deriving DecidableEq, Repr

/-- What the included headers provide and this file only calls. -/
structure Platform where
  /-- The block hash `CBlock::GetHash()`. -/
  GetHash : CBlock → uint256
  /-- The Merkle root `CBlock::BuildMerkleTree()` of the block's transactions. -/
  BuildMerkleTree : List CMutableTransaction → uint256
  /-- Reading one block with `filein >> block`: the block and the unread
  bytes, or the text `e.what()` of the exception raised. -/
  Unserialize : List Byte → Except String (CBlock × List Byte)
  /-- The amount unit `COIN`. -/
  COIN : Int
  /-- The seed table `pnSeed6_main`. -/
  pnSeed6_main : List SeedSpec6
  /-- The seed table `pnSeed6_test`. -/
  pnSeed6_test : List SeedSpec6
  /-- The clock `GetTime()`. -/
  GetTime : Int
  /-- The raw 64-bit draw behind the `k`-th call of `GetRand`. -/
  randomDraw : Nat → Nat
  /-- Whether `SelectBaseParams(network)` of the base-parameter unit returns
  (it keeps its own selection and aborts on a network it does not know). -/
  SelectBaseParams : Network → Bool

/-! ## Outcomes of running code -/

/-- How a constructor or a call ends: it returns, an `assert` fails, the
process leaves through `exit(0)`, the loop is still running when the
iteration budget is used up, or an exception with text `what` leaves the
function uncaught. -/
inductive Run (α : Type) where
  | ret (a : α)
  | assertFailed
  | exited
  | diverged
  | threw (what : String)
  deriving DecidableEq, Repr

/-- Sequencing: what follows runs only when the first part returns. -/
def Run.bind {α β : Type} (r : Run α) (f : α → Run β) : Run β :=
  match r with
  | .ret a => f a
  | .assertFailed => .assertFailed
  | .exited => .exited
  | .diverged => .diverged
  | .threw what => .threw what

/-! ## Seeds and checkpoints -/

/-- A network address with its last-seen time. `nTime` is the unsigned
32-bit member `CAddress::nTime`, a value below `2^32`. -/
structure CAddress where
  ip : List Byte
  port : Nat
  nTime : Nat
  deriving DecidableEq, Repr

/-- A DNS seed: descriptive name and host. -/
structure CDNSSeedData where
  name : String
  host : String
  deriving DecidableEq, Repr

/-- Modelled from the spec: the generator `GetRand` of `random.h` is not
among the sources. The spec describes a value uniformly randomized within
the window, so the `k`-th call with bound `nMax` yields the raw draw reduced
into `[0, nMax)`. -/
def GetRand (E : Platform) (k : Nat) (nMax : Nat) : Nat :=
  if nMax = 0 then 0 else E.randomDraw k % nMax

/-- The constant `nOneWeek = 7 * 24 * 60 * 60`. -/
def nOneWeek : Int := 7 * 24 * 60 * 60

/-- The function `convertSeed6`: every table entry becomes an address pushed
onto `vSeedsOut`, with `nTime = GetTime() - GetRand(nOneWeek) - nOneWeek`.
The value is stored in the unsigned 32-bit `nTime`, so what the address holds
is the difference reduced modulo `2^32` (the 64-bit arithmetic before the
store wraps modulo `2^64`, which the reduction absorbs). The argument `k`
counts the calls of `GetRand` made so far and is returned advanced. -/
def convertSeed6 (E : Platform) (vSeedsOut : List CAddress) :
    List SeedSpec6 → Nat → List CAddress × Nat
  | [], k => (vSeedsOut, k)
  | d :: data, k =>
    let addr : CAddress :=
      { ip := d.addr, port := d.port,
        nTime := ((E.GetTime - (GetRand E k nOneWeek.toNat : Int) - nOneWeek) % 2 ^ 32).toNat }
    convertSeed6 E (vSeedsOut ++ [addr]) data (k + 1)

/-- Checkpoint data `Checkpoints::CCheckpointData`; the map is listed in key
order. -/
structure CCheckpointData where
  mapCheckpoints : List (Nat × uint256)
  nTimeLastCheckpoint : Int
  nTransactionsLastCheckpoint : Int
  fTransactionsPerDay : Int
  deriving DecidableEq, Repr

/-- The static `mapCheckpoints`. -/
def mapCheckpoints : List (Nat × uint256) :=
  [ (0, 0x30ef80527cafd9e8685412f85e30efc2ffbfa15398c2852fe5ba0ace7f6cb741),
    (46028, 0xd7b8aa83b193e4dfa7ba0b663ee0188a5f29b5a06bda34901c698aa7c7b5c245),
    (95015, 0x5ef62dd9404ab16a2b810011cd2eead361280a43557945df1d44cf51b8edfc3b),
    (151978, 0xa80a559478d02adc7130d5859dcd9847561c1ab84dd7750ba1a604b817a77c62),
    (218512, 0x6f4064590ac7d130a56a32bcec43d578c2b1ae51eb440636d4b019874dbeceef),
    (313388, 0x787f8254c99998b65dc7fc66065f8134be33b36fe331147cd0747295dd8b6325),
    (468790, 0x79e10eb4729fe00b97197c13ec23ba20d9d86c47c5e005cb8f9adf3f849f56cb),
    (500175, 0x68d5f1216a1fbf44c29f9d1c24afe22abc70cbc769989b1da3666cc818b606be),
    (964891, 0x52913ee603c8e7f220fd4beb0591272bda859b8e6438c3f1b0abaefab243289a) ]

/-- The static `data` of the main network. -/
def data : CCheckpointData :=
  { mapCheckpoints := mapCheckpoints
    nTimeLastCheckpoint := 1642437487
    nTransactionsLastCheckpoint := 2053000
    fTransactionsPerDay := 1600 }

/-- The static `mapCheckpointsTestnet`. -/
def mapCheckpointsTestnet : List (Nat × uint256) :=
  [ (0, 0x554ec25d2f508143b7b137727a0f04052c405b01a1e3a2a42eebf943c316266d) ]

/-- The static `dataTestnet`. -/
def dataTestnet : CCheckpointData :=
  { mapCheckpoints := mapCheckpointsTestnet
    nTimeLastCheckpoint := 1581171337
    nTransactionsLastCheckpoint := 0
    fTransactionsPerDay := 250 }

/-- The static `mapCheckpointsRegtest`. -/
def mapCheckpointsRegtest : List (Nat × uint256) :=
  [ (0, 0x6a7fd108b4ef0aab9ce43734d66a04dc83ac4c49a5b3a3e23387dbfcdcaca765) ]

/-- The static `dataRegtest`. -/
def dataRegtest : CCheckpointData :=
  { mapCheckpoints := mapCheckpointsRegtest
    nTimeLastCheckpoint := 1581171338
    nTransactionsLastCheckpoint := 0
    fTransactionsPerDay := 100 }

/-! ## The parameter record -/

/-- The six entries of `base58Prefixes`. -/
structure Base58Prefixes where
  PUBKEY_ADDRESS : List Byte
  SCRIPT_ADDRESS : List Byte
  SECRET_KEY : List Byte
  EXT_PUBLIC_KEY : List Byte
  EXT_SECRET_KEY : List Byte
  EXT_COIN_TYPE : List Byte
  deriving DecidableEq, Repr, Inhabited

/-- The data members of `CChainParams` that the constructors of this file
assign. `vAlertPubKey` holds the hexadecimal text handed to `ParseHex`. -/
structure CChainParams where
  networkID : Network
  strNetworkID : String
  pchMessageStart : MessageStart
  vAlertPubKey : String
  nDefaultPort : Int
  bnProofOfWorkLimit : uint256
  nMaxReorganizationDepth : Int
  nEnforceBlockUpgradeMajority : Int
  nRejectBlockOutdatedMajority : Int
  nToCheckBlockUpgradeMajority : Int
  nMinerThreads : Int
  nTargetTimespan : Int
  nTargetSpacing : Int
  nMaturity : Int
  nMasternodeCountDrift : Int
  nMaxMoneyOut : Int
  nLastPOWBlock : Int
  nModifierUpdateBlock : Int
  genesis : CBlock
  hashGenesisBlock : uint256
  vSeeds : List CDNSSeedData
  base58Prefixes : Base58Prefixes
  bech32_hrp : String
  vFixedSeeds : List CAddress
  fMiningRequiresPeers : Bool
  fAllowMinDifficultyBlocks : Bool
  fDefaultConsistencyChecks : Bool
  fRequireStandard : Bool
  fMineBlocksOnDemand : Bool
  fSkipProofOfWorkCheck : Bool
  fTestnetToBeDeprecatedFieldRPC : Bool
  fHeadersFirstSyncingActive : Bool
  nPoolMaxTransactions : Int
  strSporkKey : String
  strSporkKeyTemp : String
  strObfuscationPoolDummyAddress : String
  nBudgetFeeConfirmations : Int
  strBootstrapUrl : String
  deriving DecidableEq, Repr, Inhabited

/-! ## Genesis search and check -/

/-- The static flag `regenerate`, initialised to `false` and never assigned. -/
def regenerate : Bool := false

/-- Modelled from the spec: `CBigNum::SetCompact` and `getuint256` of
`bignum.h` are not among the sources. The top byte of the 32-bit compact
value is an exponent and the remaining three bytes a mantissa, expanded to
`mantissa * 256^(exponent-3)`; for an exponent below 3 the mantissa is cut
down by the missing bytes, and the result is held in 256 bits. -/
def SetCompact (nCompact : Nat) : uint256 :=
  let nSize := nCompact / 2 ^ 24 % 256
  let nWord := nCompact % 2 ^ 24
  (if nSize ≤ 3 then nWord / 256 ^ (3 - nSize) else nWord * 256 ^ (nSize - 3)) % 2 ^ 256

/-- One pass of the body of the search loop: `++genesis.nNonce`, and
`++genesis.nTime` when the nonce has wrapped to 0; both are 32-bit. -/
def searchStep (genesis : CBlock) : CBlock :=
  let nNonce := (genesis.nNonce + 1) % 2 ^ 32
  if nNonce = 0 then
    { genesis with nNonce := nNonce, nTime := (genesis.nTime + 1) % 2 ^ 32 }
  else
    { genesis with nNonce := nNonce }

/-- The loop `while (genesis.GetHash() > hashTarget) { ... }` with at most
`fuel` passes of its body; `none` when the condition still holds after
`fuel` passes. -/
def searchLoop (E : Platform) (hashTarget : uint256) : Nat → CBlock → Option CBlock
  | fuel, genesis =>
    if E.GetHash genesis > hashTarget then
      match fuel with
      | 0 => none
      | fuel + 1 => searchLoop E hashTarget fuel (searchStep genesis)
    else some genesis

/-- The expected Merkle root asserted by the three constructors. -/
def expectedMerkleRoot : uint256 :=
  0xbfe8624eaa27b3eb3f6258bca5f866147660de77582088229d865399c9d4c3eb

/-- The block `hashGenesisBlock = genesis.GetHash(); if (regenerate) { ... }
else { ... assert ...; assert ...; }` that the Main, Test and RegTest
constructors each contain. `resetNonce` tells whether the regenerate branch
starts with `genesis.nNonce = 0` (Main and Test do, RegTest does not), and
`expected` is the hash constant of the first assertion. The result is the
genesis block and `hashGenesisBlock`; logging and printing are left out. -/
def genesisBlockCheck (E : Platform) (regen : Bool) (fuel : Nat) (resetNonce : Bool)
    (expected : uint256) (genesis : CBlock) : Run (CBlock × uint256) :=
  let hashGenesisBlock := E.GetHash genesis
  if regen then
    let hashGenesisBlock : uint256 := 0
    let genesis := if resetNonce then { genesis with nNonce := 0 } else genesis
    if E.GetHash genesis ≠ hashGenesisBlock then
      let hashTarget := SetCompact genesis.nBits
      match searchLoop E hashTarget fuel genesis with
      | none => .diverged
      | some genesis => .ret (genesis, hashGenesisBlock)
    else .ret (genesis, hashGenesisBlock)
  else
    if hashGenesisBlock ≠ expected then .assertFailed
    else if genesis.hashMerkleRoot ≠ expectedMerkleRoot then .assertFailed
    else .ret (genesis, hashGenesisBlock)

/-! ## The four constructors -/

/-- The text `pszTimestamp` of the genesis coinbase. -/
def pszTimestamp : String :=
  "BARE v2, The Adult Coin - Bitcoin Block 621074 - 000000000000000000020f62ea032afcca69a64f1e012f63a1a1aa9a486d1e66"

/-- The constructor `CMainParams::CMainParams()`. `k` counts the calls of
`GetRand` made before it and is returned advanced. -/
def CMainParams (E : Platform) (fuel : Nat) (k : Nat) : Run (CChainParams × Nat) :=
  let txNew : CMutableTransaction :=
    { vin := [{ scriptSig := [.int 486604799, .scriptNum 4, .data pszTimestamp] }]
      vout := [{ nValue := 0, scriptPubKey := [] }] }
  let vtx := [txNew]
  let genesis : CBlock :=
    { vtx := vtx
      hashPrevBlock := 0
      hashMerkleRoot := E.BuildMerkleTree vtx
      nVersion := 1
      nTime := 1584227334
      nBits := 0x207fffff
      nNonce := 0 }
  (genesisBlockCheck E regenerate fuel true
      0x30ef80527cafd9e8685412f85e30efc2ffbfa15398c2852fe5ba0ace7f6cb741 genesis).bind
    fun gh =>
  let seeds := convertSeed6 E [] E.pnSeed6_main k
  .ret
    ({ networkID := .MAIN
       strNetworkID := "main"
       pchMessageStart := { b0 := 0x25, b1 := 0x65, b2 := 0x72, b3 := 0x34 }
       vAlertPubKey := "044bcdbe70298b5521ca91a85b97f95212f123b3b68afc8b1903d24e98537f0a824db22b41345b29e81d266c24437382c19cc27191049c2473c9f500f9addd6a41"
       nDefaultPort := 32201
       bnProofOfWorkLimit := (2 ^ 256 - 1) / 2
       nMaxReorganizationDepth := 100
       nEnforceBlockUpgradeMajority := 750
       nRejectBlockOutdatedMajority := 950
       nToCheckBlockUpgradeMajority := 1000
       nMinerThreads := 0
       nTargetTimespan := 24 * 60 * 60
       nTargetSpacing := 1 * 60
       nMaturity := 50
       nMasternodeCountDrift := 20
       nMaxMoneyOut := 1410000 * E.COIN
       nLastPOWBlock := 500
       nModifierUpdateBlock := 1
       genesis := gh.1
       hashGenesisBlock := gh.2
       vSeeds :=
         [ { name := "dns1", host := "dns01.bare.network" },
           { name := "dns2", host := "dns02.bare.network" },
           { name := "dns3", host := "dns03.bare.network" },
           { name := "dns4", host := "dns04.bare.network" },
           { name := "onion", host := "zxsow7urhijswnvp.onion" } ]
       base58Prefixes :=
         { PUBKEY_ADDRESS := [25]
           SCRIPT_ADDRESS := [16]
           SECRET_KEY := [110]
           EXT_PUBLIC_KEY := [0x04, 0x88, 0xB2, 0x1E]
           EXT_SECRET_KEY := [0x04, 0x88, 0xAD, 0xE4]
           EXT_COIN_TYPE := [0x80, 0x00, 0x01, 0xDB] }
       bech32_hrp := "bare"
       vFixedSeeds := seeds.1
       fMiningRequiresPeers := true
       fAllowMinDifficultyBlocks := false
       fDefaultConsistencyChecks := false
       fRequireStandard := true
       fMineBlocksOnDemand := false
       fSkipProofOfWorkCheck := false
       fTestnetToBeDeprecatedFieldRPC := false
       fHeadersFirstSyncingActive := false
       nPoolMaxTransactions := 3
       strSporkKey := "048a6bf259eac7886037b9daad4d43856eeab0c1408671436f1f24a067d8dadf79ef721f0eb053b5444e01932387e2c6c03466bf0dbbdeba84302434fd3e28b077"
       strSporkKeyTemp := "048a6bf259eac7886037b9daad4d43856eeab0c1408671436f1f24a067d8dadf79ef721f0eb053b5444e01932387e2c6c03466bf0dbbdeba84302434fd3e28b077"
       strObfuscationPoolDummyAddress := "BPTA3JSwXuzHWs56xU7v1ezAWoBFeYXmKV"
       nBudgetFeeConfirmations := 6
       strBootstrapUrl := "https://bootstrap.bare.network/v2/mainnet" },
     seeds.2)

/-- The body of `CTestNetParams::CTestNetParams()`, run on the object `p`
that the base constructor has left. -/
def CTestNetParams.body (E : Platform) (fuel : Nat) (p : CChainParams) (k : Nat) :
    Run (CChainParams × Nat) :=
  let genesis := { p.genesis with nTime := 1581171337, nNonce := 0 }
  (genesisBlockCheck E regenerate fuel true
      0x554ec25d2f508143b7b137727a0f04052c405b01a1e3a2a42eebf943c316266d genesis).bind
    fun gh =>
  let seeds := convertSeed6 E [] E.pnSeed6_test k
  .ret
    ({ p with
       networkID := .TESTNET
       strNetworkID := "test"
       pchMessageStart := { b0 := 0xce, b1 := 0xff, b2 := 0xca, b3 := 0x44 }
       vAlertPubKey := "046dce17c38e0f92e6aaa7b744aaaa8be89a007a2e66d62b3944c659239d87e3721bd429a7f1f7cdf02763f3aaa7e8d6f4ac9541f6b9aa78b21b9b1e12fab307b8"
       nDefaultPort := 32203
       nEnforceBlockUpgradeMajority := 51
       nRejectBlockOutdatedMajority := 75
       nToCheckBlockUpgradeMajority := 100
       nMinerThreads := 0
       nTargetTimespan := 6 * 60 * 60
       nTargetSpacing := 1 * 30
       nMaturity := 15
       nMasternodeCountDrift := 4
       nModifierUpdateBlock := 51197
       nMaxMoneyOut := 1500000 * E.COIN
       nLastPOWBlock := 250
       genesis := gh.1
       hashGenesisBlock := gh.2
       vSeeds := [ { name := "testnetdns", host := "testnetdns.bare.network" } ]
       base58Prefixes :=
         { PUBKEY_ADDRESS := [139]
           SCRIPT_ADDRESS := [19]
           SECRET_KEY := [239]
           EXT_PUBLIC_KEY := [0x3a, 0x80, 0x61, 0xa0]
           EXT_SECRET_KEY := [0x3a, 0x80, 0x58, 0x37]
           EXT_COIN_TYPE := [0x80, 0x00, 0x00, 0x01] }
       bech32_hrp := "tbare"
       vFixedSeeds := seeds.1
       fMiningRequiresPeers := true
       fAllowMinDifficultyBlocks := true
       fDefaultConsistencyChecks := false
       fRequireStandard := true
       fMineBlocksOnDemand := false
       fTestnetToBeDeprecatedFieldRPC := true
       nPoolMaxTransactions := 2
       strSporkKeyTemp := "044555edf92189a03a509d89ab69e76148c7b4f59291e2195736b43e968694a80e11e927c8cd1dd605bc3c6809a1cadb330d230fb7a3d4a98833c5940641895abd"
       strSporkKey := "044555edf92189a03a509d89ab69e76148c7b4f59291e2195736b43e968694a80e11e927c8cd1dd605bc3c6809a1cadb330d230fb7a3d4a98833c5940641895abd"
       strObfuscationPoolDummyAddress := "7vRzZ63yCrXCf8C8sXnCuLbLf4L2kemrLkmF4MJp22JVG93VHdi"
       nBudgetFeeConfirmations := 3
       strBootstrapUrl := "https://bootstrap.bare.network/v2/testnet" },
     seeds.2)

/-- The constructor of `CTestNetParams`, a class derived from `CMainParams`:
the base constructor runs first, then the body. -/
def CTestNetParams (E : Platform) (fuel : Nat) (k : Nat) : Run (CChainParams × Nat) :=
  (CMainParams E fuel k).bind fun pk => CTestNetParams.body E fuel pk.1 pk.2

/-- The body of `CRegTestParams::CRegTestParams()`, run on the object `p`
that the base constructor has left. -/
def CRegTestParams.body (E : Platform) (fuel : Nat) (p : CChainParams) (k : Nat) :
    Run (CChainParams × Nat) :=
  let genesis := { p.genesis with nTime := 1581171338, nBits := 0x207fffff, nNonce := 1 }
  (genesisBlockCheck E regenerate fuel false
      0x6a7fd108b4ef0aab9ce43734d66a04dc83ac4c49a5b3a3e23387dbfcdcaca765 genesis).bind
    fun gh =>
  if regenerate then .exited
  else
  .ret
    ({ p with
       networkID := .REGTEST
       strNetworkID := "regtest"
       pchMessageStart := { b0 := 0x54, b1 := 0x14, b2 := 0x64, b3 := 0x95 }
       nEnforceBlockUpgradeMajority := 750
       nRejectBlockOutdatedMajority := 950
       nToCheckBlockUpgradeMajority := 1000
       nMinerThreads := 1
       nTargetTimespan := 24 * 60 * 60
       nTargetSpacing := 1 * 60
       bnProofOfWorkLimit := (2 ^ 256 - 1) / 2
       genesis := gh.1
       nMaturity := 0
       nLastPOWBlock := 999999999
       nDefaultPort := 32205
       hashGenesisBlock := gh.2
       bech32_hrp := "bart"
       vFixedSeeds := []
       vSeeds := []
       fMiningRequiresPeers := false
       fAllowMinDifficultyBlocks := true
       fDefaultConsistencyChecks := true
       fRequireStandard := false
       fMineBlocksOnDemand := true
       fTestnetToBeDeprecatedFieldRPC := false
       strSporkKey := "041d6a87defe52522360ce74e5215df97fd3e167b71509b883c6c43f65666b15b5e7897cab47331d48bf50352b8d0d6d51769c12a422126ce5087e4b605de83cb9"
       strSporkKeyTemp := "041d6a87defe52522360ce74e5215df97fd3e167b71509b883c6c43f65666b15b5e7897cab47331d48bf50352b8d0d6d51769c12a422126ce5087e4b605de83cb9" },
     k)

/-- The constructor of `CRegTestParams`, a class derived from
`CTestNetParams`. -/
def CRegTestParams (E : Platform) (fuel : Nat) (k : Nat) : Run (CChainParams × Nat) :=
  (CTestNetParams E fuel k).bind fun pk => CRegTestParams.body E fuel pk.1 pk.2

/-- The body of `CUnitTestParams::CUnitTestParams()`, run on the object `p`
that the base constructor has left. -/
def CUnitTestParams.body (p : CChainParams) : CChainParams :=
  { p with
    networkID := .UNITTEST
    strNetworkID := "unittest"
    nDefaultPort := 32207
    vFixedSeeds := []
    vSeeds := []
    fMiningRequiresPeers := false
    fDefaultConsistencyChecks := true
    fAllowMinDifficultyBlocks := false
    fMineBlocksOnDemand := true }

/-- The constructor of `CUnitTestParams`, a class derived from `CMainParams`. -/
def CUnitTestParams (E : Platform) (fuel : Nat) (k : Nat) : Run (CChainParams × Nat) :=
  (CMainParams E fuel k).bind fun pk => .ret (CUnitTestParams.body pk.1, pk.2)

/-! ## The static objects and the current-parameters pointer -/

/-- The four static parameter objects; a value of this type stands for the
address of one of them. -/
inductive Instance where
  | mainParams
  | testNetParams
  | regTestParams
  | unitTestParams
  deriving DecidableEq, Repr

/-- The mutable state of the translation unit: the four static objects and
the pointer `pCurrentParams` (`none` is the null pointer). -/
structure Registry where
  mainParams : CChainParams
  testNetParams : CChainParams
  regTestParams : CChainParams
  unitTestParams : CChainParams
  pCurrentParams : Option Instance
  deriving DecidableEq, Repr, Inhabited

/-- The object at an address. -/
def Registry.obj (s : Registry) : Instance → CChainParams
  | .mainParams => s.mainParams
  | .testNetParams => s.testNetParams
  | .regTestParams => s.regTestParams
  | .unitTestParams => s.unitTestParams

/-- Static initialisation in declaration order: `mainParams`,
`testNetParams`, `regTestParams`, `unitTestParams`, and
`pCurrentParams = 0`. -/
def staticInit (E : Platform) (fuel : Nat) : Run Registry :=
  (CMainParams E fuel 0).bind fun m =>
  (CTestNetParams E fuel m.2).bind fun t =>
  (CRegTestParams E fuel t.2).bind fun r =>
  (CUnitTestParams E fuel r.2).bind fun u =>
  .ret
    { mainParams := m.1
      testNetParams := t.1
      regTestParams := r.1
      unitTestParams := u.1
      pCurrentParams := none }

/-- The virtual member `Checkpoints()`, resolved by the dynamic type of the
object. -/
def Checkpoints : Instance → CCheckpointData
  | .mainParams => data
  | .testNetParams => dataTestnet
  | .regTestParams => dataRegtest
  | .unitTestParams => data

/-- The setter `CUnitTestParams::setEnforceBlockUpgradeMajority` on the
static `unitTestParams`. -/
def setEnforceBlockUpgradeMajority (anEnforceBlockUpgradeMajority : Int) (s : Registry) :
    Registry :=
  { s with unitTestParams :=
      { s.unitTestParams with nEnforceBlockUpgradeMajority := anEnforceBlockUpgradeMajority } }

/-- The setter `CUnitTestParams::setRejectBlockOutdatedMajority`. -/
def setRejectBlockOutdatedMajority (anRejectBlockOutdatedMajority : Int) (s : Registry) :
    Registry :=
  { s with unitTestParams :=
      { s.unitTestParams with nRejectBlockOutdatedMajority := anRejectBlockOutdatedMajority } }

/-- The setter `CUnitTestParams::setToCheckBlockUpgradeMajority`. -/
def setToCheckBlockUpgradeMajority (anToCheckBlockUpgradeMajority : Int) (s : Registry) :
    Registry :=
  { s with unitTestParams :=
      { s.unitTestParams with nToCheckBlockUpgradeMajority := anToCheckBlockUpgradeMajority } }

/-- The setter `CUnitTestParams::setDefaultConsistencyChecks`. -/
def setDefaultConsistencyChecks (afDefaultConsistencyChecks : Bool) (s : Registry) : Registry :=
  { s with unitTestParams :=
      { s.unitTestParams with fDefaultConsistencyChecks := afDefaultConsistencyChecks } }

/-- The setter `CUnitTestParams::setAllowMinDifficultyBlocks`. -/
def setAllowMinDifficultyBlocks (afAllowMinDifficultyBlocks : Bool) (s : Registry) : Registry :=
  { s with unitTestParams :=
      { s.unitTestParams with fAllowMinDifficultyBlocks := afAllowMinDifficultyBlocks } }

/-- The setter `CUnitTestParams::setSkipProofOfWorkCheck`. -/
def setSkipProofOfWorkCheck (afSkipProofOfWorkCheck : Bool) (s : Registry) : Registry :=
  { s with unitTestParams :=
      { s.unitTestParams with fSkipProofOfWorkCheck := afSkipProofOfWorkCheck } }

/-- The function `ModifiableParams()`: two assertions, then the address of
`unitTestParams`. -/
def ModifiableParams (s : Registry) : Run Instance :=
  if s.pCurrentParams = none then .assertFailed
  else if s.pCurrentParams ≠ some .unitTestParams then .assertFailed
  else .ret .unitTestParams

/-- The function `ParamsSelected()`. -/
def ParamsSelected (s : Registry) : Bool :=
  s.pCurrentParams != none

/-- The function `Params()`: asserts the pointer and returns the object it
points to. -/
def Params (s : Registry) : Run Instance :=
  match s.pCurrentParams with
  | none => .assertFailed
  | some cur => .ret cur

/-- The function `Params(CBaseChainParams::Network)`. -/
def ParamsFor : Network → Run Instance
  | .MAIN => .ret .mainParams
  | .TESTNET => .ret .testNetParams
  | .REGTEST => .ret .regTestParams
  | .UNITTEST => .ret .unitTestParams
  | .MAX_NETWORK_TYPES => .assertFailed

/-- The function `SelectParams`: `SelectBaseParams(network)` and then
`pCurrentParams = &Params(network)`. -/
def SelectParams (E : Platform) (network : Network) (s : Registry) : Run Registry :=
  if E.SelectBaseParams network then
    (ParamsFor network).bind fun p => .ret { s with pCurrentParams := some p }
  else .assertFailed

/-- The function `SelectParamsFromCommandLine`; `network` is what
`NetworkIdFromCommandLine()` returns. -/
def SelectParamsFromCommandLine (E : Platform) (network : Network) (s : Registry) :
    Run (Bool × Registry) :=
  if network = .MAX_NETWORK_TYPES then .ret (false, s)
  else (SelectParams E network s).bind fun s => .ret (true, s)

/-- The function `GetBlockChainSize`. -/
def GetBlockChainSize : Nat :=
  let GB_BYTES := 1000000000
  1 * GB_BYTES

/-! ## Genesis verification -/

/-- Modelled from the spec: the stream class `CAutoFile` of `streams.h` is
not among the sources. It wraps the `FILE*` handed to it; `none` is the null
handle, otherwise the bytes of the file not yet read. -/
structure CAutoFile where
  file : Option (List Byte)
  deriving DecidableEq, Repr

/-- The member `CAutoFile::IsNull()`: whether the wrapped handle is null. -/
def CAutoFile.IsNull (f : CAutoFile) : Bool := f.file.isNone

/-- Modelled from the spec: `CAutoFile::read` is not among the sources. It
delivers the next `nSize` bytes; on truncated input (fewer bytes left) the
read fails with an exception, the kind of failure that the `catch` clause
around the block read reports as `Deserialize or I/O error`. -/
def CAutoFile.read (f : CAutoFile) (nSize : Nat) : Except String (List Byte × CAutoFile) :=
  match f.file with
  | none => .error "CAutoFile::read : file handle is NULL"
  | some bytes =>
    if bytes.length < nSize then .error "CAutoFile::read : end of file"
    else .ok (bytes.take nSize, { file := some (bytes.drop nSize) })

/-- Modelled from the spec: `filein >> nSize` for an `unsigned int`, four
bytes read as a little-endian length. -/
def CAutoFile.readUInt32 (f : CAutoFile) : Except String (Nat × CAutoFile) :=
  match f.read 4 with
  | .ok ([l0, l1, l2, l3], f) => .ok (ReadLE32 l0 l1 l2 l3, f)
  | .ok _ => .error "CAutoFile::read : end of file"
  | .error what => .error what

/-- The read `filein >> block`: the platform's block reader on the bytes not
yet read. -/
def CAutoFile.readBlock (E : Platform) (f : CAutoFile) : Except String (CBlock × CAutoFile) :=
  match f.file with
  | none => .error "CAutoFile::read : file handle is NULL"
  | some bytes =>
    match E.Unserialize bytes with
    | .ok (block, rest) => .ok (block, { file := some rest })
    | .error what => .error what

/-- The value that `VerifyGenesisBlock` leaves in `err` when it returns
`false`, one constructor per `strprintf` of the function. -/
inductive VerifyError where
  | failedToOpen (path : String)
  | openBlockFileFailed (path : String)
  | invalidMagic (buf : List Byte) (path : String)
  | invalidBlockSize (nSize : Nat) (path : String)
  | deserializeOrIo (what : String)
  | hashMismatch (blockHash : uint256) (genesisHash : uint256)
  deriving DecidableEq, Repr

/-- The text of `err`. -/
def VerifyError.message : VerifyError → String
  | .failedToOpen path => "Failed to open file: " ++ path
  | .openBlockFileFailed path => "Open block file failed: " ++ path
  | .invalidMagic buf path =>
    "Invalid magic numer " ++ HexStr buf ++ " in the file: " ++ path
  | .invalidBlockSize nSize path =>
    "Invalid block size " ++ toString nSize ++ " in the file: " ++ path
  | .deserializeOrIo what => "Deserialize or I/O error: " ++ what
  | .hashMismatch blockHash genesisHash =>
    "Block hash " ++ uint256.ToString blockHash ++ " does not match genesis block hash "
      ++ uint256.ToString genesisHash

/-- What `VerifyGenesisBlock` hands back when it returns: `true`, or `false`
with `err` set. -/
inductive Verdict where
  | success
  | failure (err : VerifyError)
  deriving DecidableEq, Repr

/-- The function `VerifyGenesisBlock`. `fopen` gives the content of the file
at a path, or `none` when the file cannot be opened. -/
def VerifyGenesisBlock (E : Platform) (fopen : String → Option (List Byte)) (s : Registry)
    (datadir : String) (genesisHash : uint256) : Run Verdict :=
  let path := datadir ++ "/blocks/blk00000.dat"
  let fptr := fopen path
  if fptr.isNone then .ret (.failure (.failedToOpen path))
  else
  let filein : CAutoFile := { file := fptr }
  if filein.IsNull then .ret (.failure (.openBlockFileFailed path))
  else
  match filein.read 4 with
  | .error what => .threw what
  | .ok (buf, filein) =>
    (Params s).bind fun cur =>
    if buf ≠ (s.obj cur).pchMessageStart.bytes then
      .ret (.failure (.invalidMagic buf path))
    else
    match filein.readUInt32 with
    | .error what => .threw what
    | .ok (nSize, filein) =>
      if nSize < 80 ∨ nSize > 2000000 then
        .ret (.failure (.invalidBlockSize nSize path))
      else
      match filein.readBlock E with
      | .error what => .ret (.failure (.deserializeOrIo what))
      | .ok (block, _) =>
        if E.GetHash block ≠ genesisHash then
          .ret (.failure (.hashMismatch (E.GetHash block) genesisHash))
        else .ret .success

/-! ## Calls into the translation unit -/

/-- A call of one of the functions the translation unit defines, with its
arguments. The setters are members of the static `unitTestParams`. -/
inductive Call where
  | ModifiableParams
  | ParamsSelected
  | Params
  | ParamsFor (network : Network)
  | SelectParams (network : Network)
  | SelectParamsFromCommandLine (network : Network)
  | GetBlockChainSize
  | VerifyGenesisBlock (fopen : String → Option (List Byte)) (datadir : String)
      (genesisHash : uint256)
  | setEnforceBlockUpgradeMajority (anEnforceBlockUpgradeMajority : Int)
  | setRejectBlockOutdatedMajority (anRejectBlockOutdatedMajority : Int)
  | setToCheckBlockUpgradeMajority (anToCheckBlockUpgradeMajority : Int)
  | setDefaultConsistencyChecks (afDefaultConsistencyChecks : Bool)
  | setAllowMinDifficultyBlocks (afAllowMinDifficultyBlocks : Bool)
  | setSkipProofOfWorkCheck (afSkipProofOfWorkCheck : Bool)

/-- The state in which a call leaves the translation unit when it returns.
Functions that assign nothing leave the state they found. -/
def runCall (E : Platform) : Call → Registry → Run Registry
  | .ModifiableParams, s => (ModifiableParams s).bind fun _ => .ret s
  | .ParamsSelected, s => .ret s
  | .Params, s => (Params s).bind fun _ => .ret s
  | .ParamsFor network, s => (ParamsFor network).bind fun _ => .ret s
  | .SelectParams network, s => SelectParams E network s
  | .SelectParamsFromCommandLine network, s =>
    (SelectParamsFromCommandLine E network s).bind fun r => .ret r.2
  | .GetBlockChainSize, s => .ret s
  | .VerifyGenesisBlock fopen datadir genesisHash, s =>
    (VerifyGenesisBlock E fopen s datadir genesisHash).bind fun _ => .ret s
  | .setEnforceBlockUpgradeMajority v, s => .ret (setEnforceBlockUpgradeMajority v s)
  | .setRejectBlockOutdatedMajority v, s => .ret (setRejectBlockOutdatedMajority v s)
  | .setToCheckBlockUpgradeMajority v, s => .ret (setToCheckBlockUpgradeMajority v s)
  | .setDefaultConsistencyChecks v, s => .ret (setDefaultConsistencyChecks v s)
  | .setAllowMinDifficultyBlocks v, s => .ret (setAllowMinDifficultyBlocks v s)
  | .setSkipProofOfWorkCheck v, s => .ret (setSkipProofOfWorkCheck v s)

/-- The states the translation unit can be in after static initialisation
has produced `s0`: `s0` itself and every state a returning call leads to. -/
inductive Reachable (E : Platform) (s0 : Registry) : Registry → Prop where
  | init : Reachable E s0 s0
  | step {s s1 : Registry} (c : Call) :
      Reachable E s0 s → runCall E c s = .ret s1 → Reachable E s0 s1

/-- The identity fields of a state: each object carries its own network
identifier and default port. -/
def Registry.IdentityFixed (s : Registry) : Prop :=
  (s.mainParams.networkID = .MAIN ∧ s.mainParams.nDefaultPort = 32201)
  ∧ (s.testNetParams.networkID = .TESTNET ∧ s.testNetParams.nDefaultPort = 32203)
  ∧ (s.regTestParams.networkID = .REGTEST ∧ s.regTestParams.nDefaultPort = 32205)
  ∧ (s.unitTestParams.networkID = .UNITTEST ∧ s.unitTestParams.nDefaultPort = 32207)

/-- The part of the state outside `unitTestParams`: the other three objects
and the pointer agree in `s` and `s1`. -/
def Registry.SameOutsideUnitTest (s s1 : Registry) : Prop :=
  s1.mainParams = s.mainParams ∧ s1.testNetParams = s.testNetParams
  ∧ s1.regTestParams = s.regTestParams ∧ s1.pCurrentParams = s.pCurrentParams

/-! ## The genesis blocks by name -/

/-- The genesis block as the main constructor has assembled it at the point
where it computes `hashGenesisBlock`. -/
def CMainParams.genesis (E : Platform) : CBlock :=
  let txNew : CMutableTransaction :=
    { vin := [{ scriptSig := [.int 486604799, .scriptNum 4, .data pszTimestamp] }]
      vout := [{ nValue := 0, scriptPubKey := [] }] }
  let vtx := [txNew]
  { vtx := vtx
    hashPrevBlock := 0
    hashMerkleRoot := E.BuildMerkleTree vtx
    nVersion := 1
    nTime := 1584227334
    nBits := 0x207fffff
    nNonce := 0 }

/-- The genesis block after the two assignments of the test-network
constructor. -/
def CTestNetParams.genesis (E : Platform) : CBlock :=
  { CMainParams.genesis E with nTime := 1581171337, nNonce := 0 }

/-- The genesis block after the three assignments of the regression-test
constructor. -/
def CRegTestParams.genesis (E : Platform) : CBlock :=
  { CTestNetParams.genesis E with nTime := 1581171338, nBits := 0x207fffff, nNonce := 1 }

/-- The hash constant in the first assertion of the constructor that leaves
the object its genesis hash; the unit-test object gets it from the main
constructor. -/
def expectedGenesisHash : Instance → uint256
  | .mainParams => 0x30ef80527cafd9e8685412f85e30efc2ffbfa15398c2852fe5ba0ace7f6cb741
  | .testNetParams => 0x554ec25d2f508143b7b137727a0f04052c405b01a1e3a2a42eebf943c316266d
  | .regTestParams => 0x6a7fd108b4ef0aab9ce43734d66a04dc83ac4c49a5b3a3e23387dbfcdcaca765
  | .unitTestParams => 0x30ef80527cafd9e8685412f85e30efc2ffbfa15398c2852fe5ba0ace7f6cb741

/-- The conditions of all assertions in the constructors: each of the three
genesis blocks hashes to its constant, and the Merkle root is the expected
one (the three blocks share it). -/
def GenesisAssertionsHold (E : Platform) : Prop :=
  E.GetHash (CMainParams.genesis E) = expectedGenesisHash .mainParams
  ∧ E.GetHash (CTestNetParams.genesis E) = expectedGenesisHash .testNetParams
  ∧ E.GetHash (CRegTestParams.genesis E) = expectedGenesisHash .regTestParams
  ∧ E.BuildMerkleTree (CMainParams.genesis E).vtx = expectedMerkleRoot

/-- An object with the six members that the unit-test setters assign
replaced. -/
def CChainParams.withSetterFields (p : CChainParams) (nEnforce nReject nToCheck : Int)
    (fChecks fMinDifficulty fSkipPow : Bool) : CChainParams :=
  { p with
    nEnforceBlockUpgradeMajority := nEnforce
    nRejectBlockOutdatedMajority := nReject
    nToCheckBlockUpgradeMajority := nToCheck
    fDefaultConsistencyChecks := fChecks
    fAllowMinDifficultyBlocks := fMinDifficulty
    fSkipProofOfWorkCheck := fSkipPow }

/-- The object `base` with every member that the body of the test-network
constructor assigns taken from `t`; of the genesis block the body assigns
`nTime` and `nNonce`. -/
def CChainParams.withTestNetAssigned (base t : CChainParams) : CChainParams :=
  { base with
    networkID := t.networkID
    strNetworkID := t.strNetworkID
    pchMessageStart := t.pchMessageStart
    vAlertPubKey := t.vAlertPubKey
    nDefaultPort := t.nDefaultPort
    nEnforceBlockUpgradeMajority := t.nEnforceBlockUpgradeMajority
    nRejectBlockOutdatedMajority := t.nRejectBlockOutdatedMajority
    nToCheckBlockUpgradeMajority := t.nToCheckBlockUpgradeMajority
    nMinerThreads := t.nMinerThreads
    nTargetTimespan := t.nTargetTimespan
    nTargetSpacing := t.nTargetSpacing
    nMaturity := t.nMaturity
    nMasternodeCountDrift := t.nMasternodeCountDrift
    nModifierUpdateBlock := t.nModifierUpdateBlock
    nMaxMoneyOut := t.nMaxMoneyOut
    nLastPOWBlock := t.nLastPOWBlock
    genesis := { base.genesis with nTime := t.genesis.nTime, nNonce := t.genesis.nNonce }
    hashGenesisBlock := t.hashGenesisBlock
    vFixedSeeds := t.vFixedSeeds
    vSeeds := t.vSeeds
    base58Prefixes := t.base58Prefixes
    bech32_hrp := t.bech32_hrp
    fMiningRequiresPeers := t.fMiningRequiresPeers
    fAllowMinDifficultyBlocks := t.fAllowMinDifficultyBlocks
    fDefaultConsistencyChecks := t.fDefaultConsistencyChecks
    fRequireStandard := t.fRequireStandard
    fMineBlocksOnDemand := t.fMineBlocksOnDemand
    fTestnetToBeDeprecatedFieldRPC := t.fTestnetToBeDeprecatedFieldRPC
    nPoolMaxTransactions := t.nPoolMaxTransactions
    strSporkKeyTemp := t.strSporkKeyTemp
    strSporkKey := t.strSporkKey
    strObfuscationPoolDummyAddress := t.strObfuscationPoolDummyAddress
    nBudgetFeeConfirmations := t.nBudgetFeeConfirmations
    strBootstrapUrl := t.strBootstrapUrl }

/-- The object `base` with every member that the body of the
regression-test constructor assigns taken from `r`; of the genesis block the
body assigns `nTime`, `nBits` and `nNonce`. -/
def CChainParams.withRegTestAssigned (base r : CChainParams) : CChainParams :=
  { base with
    networkID := r.networkID
    strNetworkID := r.strNetworkID
    pchMessageStart := r.pchMessageStart
    nEnforceBlockUpgradeMajority := r.nEnforceBlockUpgradeMajority
    nRejectBlockOutdatedMajority := r.nRejectBlockOutdatedMajority
    nToCheckBlockUpgradeMajority := r.nToCheckBlockUpgradeMajority
    nMinerThreads := r.nMinerThreads
    nTargetTimespan := r.nTargetTimespan
    nTargetSpacing := r.nTargetSpacing
    bnProofOfWorkLimit := r.bnProofOfWorkLimit
    genesis :=
      { base.genesis with
        nTime := r.genesis.nTime, nBits := r.genesis.nBits, nNonce := r.genesis.nNonce }
    nMaturity := r.nMaturity
    nLastPOWBlock := r.nLastPOWBlock
    nDefaultPort := r.nDefaultPort
    hashGenesisBlock := r.hashGenesisBlock
    bech32_hrp := r.bech32_hrp
    vFixedSeeds := r.vFixedSeeds
    vSeeds := r.vSeeds
    fMiningRequiresPeers := r.fMiningRequiresPeers
    fAllowMinDifficultyBlocks := r.fAllowMinDifficultyBlocks
    fDefaultConsistencyChecks := r.fDefaultConsistencyChecks
    fRequireStandard := r.fRequireStandard
    fMineBlocksOnDemand := r.fMineBlocksOnDemand
    fTestnetToBeDeprecatedFieldRPC := r.fTestnetToBeDeprecatedFieldRPC
    strSporkKey := r.strSporkKey
    strSporkKeyTemp := r.strSporkKeyTemp }

/-- A setter called on the pointer that `ModifiableParams()` returns, as in
`ModifiableParams()->setSkipProofOfWorkCheck(true)`; `setter` is the setter
with its argument. -/
def ModifiableParams.call (setter : Registry → Registry) (s : Registry) : Run Registry :=
  (ModifiableParams s).bind fun _ => .ret (setter s)

/-- A sequence of `SelectParams` calls, one per listed network, in order. -/
def selectAll (E : Platform) : List Network → Registry → Run Registry
  | [], s => .ret s
  | network :: rest, s => (SelectParams E network s).bind (selectAll E rest)

/-! ## A sample platform -/

/-- A small platform on which the constructors' assertions hold: the hash
looks only at time and nonce and gives the three genesis blocks their
expected hashes, and a block is read from five bytes (the time as a
little-endian 32-bit value, then the nonce). -/
def samplePlatform : Platform :=
  { GetHash := fun b =>
      if b.nTime = 1584227334 ∧ b.nNonce = 0 then
        0x30ef80527cafd9e8685412f85e30efc2ffbfa15398c2852fe5ba0ace7f6cb741
      else if b.nTime = 1581171337 ∧ b.nNonce = 0 then
        0x554ec25d2f508143b7b137727a0f04052c405b01a1e3a2a42eebf943c316266d
      else if b.nTime = 1581171338 ∧ b.nNonce = 1 then
        0x6a7fd108b4ef0aab9ce43734d66a04dc83ac4c49a5b3a3e23387dbfcdcaca765
      else 1000 * b.nTime + b.nNonce
    BuildMerkleTree := fun _ => expectedMerkleRoot
    Unserialize := fun bytes =>
      match bytes with
      | t0 :: t1 :: t2 :: t3 :: n :: rest =>
        .ok ({ nVersion := 1, hashPrevBlock := 0, hashMerkleRoot := 0,
               nTime := ReadLE32 t0 t1 t2 t3, nBits := 0x207fffff, nNonce := n.val,
               vtx := [] }, rest)
      | _ => .error "end of data"
    COIN := 100000000
    pnSeed6_main := [{ addr := [0, 0, 0, 0, 0, 0, 0, 0, 0, 0, 255, 255, 10, 0, 0, 1], port := 32201 }]
    pnSeed6_test := []
    GetTime := 1700000000
    randomDraw := fun k => 12345 + 1000003 * k
    SelectBaseParams := fun network => network != .MAX_NETWORK_TYPES }

/-- The value a run returned, or `d` when it did not return. -/
def Run.getD {α : Type} (r : Run α) (d : α) : α :=
  match r with
  | .ret a => a
  | _ => d

/-- The state after static initialisation on the sample platform. -/
def sampleRegistry : Registry :=
  (staticInit samplePlatform 0).getD default

/-- The sample state after `SelectParams(REGTEST)`. -/
def sampleSelected : Registry :=
  (SelectParams samplePlatform .REGTEST sampleRegistry).getD sampleRegistry

/-- The sample state after `SelectParams(UNITTEST)`. -/
def sampleUnitTestSelected : Registry :=
  (SelectParams samplePlatform .UNITTEST sampleRegistry).getD sampleRegistry

/-- The sample state after `SelectParams(MAIN)`. -/
def sampleMainSelected : Registry :=
  (SelectParams samplePlatform .MAIN sampleRegistry).getD sampleRegistry

/-- A block one pass before its nonce wraps, for running the search on the
sample platform. -/
def sampleSearchStart : CBlock :=
  { nVersion := 1, hashPrevBlock := 0, hashMerkleRoot := 0, nTime := 0, nBits := 0x207fffff,
    nNonce := 4294967295, vtx := [] }

/-- A block file for the regression-test network: magic bytes, the length
80, and the five bytes from which the sample platform reads the
regression-test genesis block (time 1581171338, nonce 1). -/
def sampleBlockFile : List Byte :=
  [0x54, 0x14, 0x64, 0x95, 80, 0, 0, 0, 0x8A, 0xC2, 0x3E, 0x5E, 1]

/-- A file system that holds `bytes` as the first block file of the data
directory `/data` and nothing else. -/
def sampleFopen (bytes : List Byte) : String → Option (List Byte) :=
  fun path => if path = "/data/blocks/blk00000.dat" then some bytes else none

/-! ## Lemmas on the file stream -/

/-- Reading four bytes from a file that holds at least four. -/
theorem CAutoFile.read_four (m0 m1 m2 m3 : Byte) (tail : List Byte) :
    CAutoFile.read { file := some (m0 :: m1 :: m2 :: m3 :: tail) } 4
      = .ok ([m0, m1, m2, m3], { file := some tail }) := by
  simp [CAutoFile.read]

/-- Reading the length from a file that holds at least four bytes. -/
theorem CAutoFile.readUInt32_four (l0 l1 l2 l3 : Byte) (tail : List Byte) :
    CAutoFile.readUInt32 { file := some (l0 :: l1 :: l2 :: l3 :: tail) }
      = .ok (ReadLE32 l0 l1 l2 l3, { file := some tail }) := by
  simp only [CAutoFile.readUInt32, CAutoFile.read_four]

/-- The function up to the length check, on a file that opens, starts with
the magic bytes of the current object and holds a length. -/
theorem VerifyGenesisBlock_after_magic (E : Platform) (fopen : String → Option (List Byte))
    (s : Registry) (datadir : String) (genesisHash : uint256) (cur : Instance)
    (l0 l1 l2 l3 : Byte) (body : List Byte)
    (hsel : Params s = .ret cur)
    (hfile : fopen (datadir ++ "/blocks/blk00000.dat")
      = some ((s.obj cur).pchMessageStart.bytes ++ [l0, l1, l2, l3] ++ body)) :
    VerifyGenesisBlock E fopen s datadir genesisHash =
      if ReadLE32 l0 l1 l2 l3 < 80 ∨ ReadLE32 l0 l1 l2 l3 > 2000000 then
        .ret (.failure (.invalidBlockSize (ReadLE32 l0 l1 l2 l3)
          (datadir ++ "/blocks/blk00000.dat")))
      else
        match E.Unserialize body with
        | .error what => .ret (.failure (.deserializeOrIo what))
        | .ok (block, _) =>
          if E.GetHash block ≠ genesisHash then
            .ret (.failure (.hashMismatch (E.GetHash block) genesisHash))
          else .ret .success := by
  unfold VerifyGenesisBlock
  simp only [hfile, MessageStart.bytes, List.cons_append, List.nil_append, Option.isNone_some,
    CAutoFile.IsNull, CAutoFile.read_four, hsel, Run.bind, CAutoFile.readUInt32_four]
  simp only [ne_eq, not_true_eq_false, if_false, Bool.false_eq_true]
  split
  · rfl
  · simp only [CAutoFile.readBlock]
    cases h : E.Unserialize body with
    | error what => rfl
    | ok r => rfl

/-! ## Genesis verification: the claims -/

/-- C1: with a network selected, a block file that opens and consists of the
active network's four magic bytes, a little-endian length between 80 and
2,000,000, and bytes from which a block is read whose hash equals the
expected genesis hash, makes `VerifyGenesisBlock` return success. -/
theorem VerifyGenesisBlock_accepts_genesis (E : Platform)
    (fopen : String → Option (List Byte)) (s : Registry) (datadir : String)
    (genesisHash : uint256) (cur : Instance) (l0 l1 l2 l3 : Byte) (body rest : List Byte)
    (B : CBlock)
    (hsel : Params s = .ret cur)
    (hfile : fopen (datadir ++ "/blocks/blk00000.dat")
      = some ((s.obj cur).pchMessageStart.bytes ++ [l0, l1, l2, l3] ++ body))
    (hlo : 80 ≤ ReadLE32 l0 l1 l2 l3) (hhi : ReadLE32 l0 l1 l2 l3 ≤ 2000000)
    (hB : E.Unserialize body = .ok (B, rest))
    (hhash : E.GetHash B = genesisHash) :
    VerifyGenesisBlock E fopen s datadir genesisHash = .ret .success := by
  rw [VerifyGenesisBlock_after_magic E fopen s datadir genesisHash cur l0 l1 l2 l3 body hsel hfile]
  have hrange : ¬ (ReadLE32 l0 l1 l2 l3 < 80 ∨ ReadLE32 l0 l1 l2 l3 > 2000000) := by omega
  simp only [hrange, if_false, hB, hhash, ne_eq, not_true_eq_false]

/-- Witness of C1: the regression-test block file is accepted with the
regression-test network selected. -/
theorem VerifyGenesisBlock_accepts_genesis_witness :
    VerifyGenesisBlock samplePlatform (sampleFopen sampleBlockFile) sampleSelected "/data"
      0x6a7fd108b4ef0aab9ce43734d66a04dc83ac4c49a5b3a3e23387dbfcdcaca765 = .ret .success :=
  VerifyGenesisBlock_accepts_genesis samplePlatform (sampleFopen sampleBlockFile)
    sampleSelected "/data" 0x6a7fd108b4ef0aab9ce43734d66a04dc83ac4c49a5b3a3e23387dbfcdcaca765
    .regTestParams 80 0 0 0 [0x8A, 0xC2, 0x3E, 0x5E, 1] []
    { nVersion := 1, hashPrevBlock := 0, hashMerkleRoot := 0, nTime := 1581171338,
      nBits := 0x207fffff, nNonce := 1, vtx := [] }
    (by rfl) (by rfl) (by decide) (by decide) (by rfl) (by rfl)

/-- C2: with a network selected, on a block file with the correct magic, an
in-range length and a block `B` that is read successfully, the function
fails with the hash-mismatch error exactly when the hash of `B` differs from
the expected genesis hash; the error then carries both hashes. -/
theorem VerifyGenesisBlock_mismatch_iff (E : Platform)
    (fopen : String → Option (List Byte)) (s : Registry) (datadir : String)
    (genesisHash : uint256) (cur : Instance) (l0 l1 l2 l3 : Byte) (body rest : List Byte)
    (B : CBlock)
    (hsel : Params s = .ret cur)
    (hfile : fopen (datadir ++ "/blocks/blk00000.dat")
      = some ((s.obj cur).pchMessageStart.bytes ++ [l0, l1, l2, l3] ++ body))
    (hlo : 80 ≤ ReadLE32 l0 l1 l2 l3) (hhi : ReadLE32 l0 l1 l2 l3 ≤ 2000000)
    (hB : E.Unserialize body = .ok (B, rest)) :
    ((∃ blockHash expected, VerifyGenesisBlock E fopen s datadir genesisHash
        = .ret (.failure (.hashMismatch blockHash expected)))
      ↔ E.GetHash B ≠ genesisHash)
    ∧ (E.GetHash B ≠ genesisHash →
        VerifyGenesisBlock E fopen s datadir genesisHash
          = .ret (.failure (.hashMismatch (E.GetHash B) genesisHash))) := by
  rw [VerifyGenesisBlock_after_magic E fopen s datadir genesisHash cur l0 l1 l2 l3 body hsel hfile]
  have hrange : ¬ (ReadLE32 l0 l1 l2 l3 < 80 ∨ ReadLE32 l0 l1 l2 l3 > 2000000) := by omega
  simp only [hrange, if_false, hB]
  by_cases hh : E.GetHash B = genesisHash
  · simp [hh]
  · simp [hh]

/-- Witness of C2: the regression-test block file checked against another
expected hash fails with the hash-mismatch error. -/
theorem VerifyGenesisBlock_mismatch_iff_witness :
    VerifyGenesisBlock samplePlatform (sampleFopen sampleBlockFile) sampleSelected "/data" 7
      = .ret (.failure (.hashMismatch
          0x6a7fd108b4ef0aab9ce43734d66a04dc83ac4c49a5b3a3e23387dbfcdcaca765 7)) :=
  (VerifyGenesisBlock_mismatch_iff samplePlatform (sampleFopen sampleBlockFile)
    sampleSelected "/data" 7 .regTestParams 80 0 0 0 [0x8A, 0xC2, 0x3E, 0x5E, 1] []
    { nVersion := 1, hashPrevBlock := 0, hashMerkleRoot := 0, nTime := 1581171338,
      nBits := 0x207fffff, nNonce := 1, vtx := [] }
    (by rfl) (by rfl) (by decide) (by decide) (by rfl)).2 (by decide)

/-- C3: on a block file that opens and starts with the active network's
magic followed by a 32-bit length `n`, the function fails with the
invalid-block-size error exactly when `n < 80` or `n > 2,000,000`; the
lengths 80 and 2,000,000 are not rejected by this check, and 10 and
3,000,000 are. -/
theorem VerifyGenesisBlock_size_iff (E : Platform)
    (fopen : String → Option (List Byte)) (s : Registry) (datadir : String)
    (genesisHash : uint256) (cur : Instance) (l0 l1 l2 l3 : Byte) (body : List Byte)
    (hsel : Params s = .ret cur)
    (hfile : fopen (datadir ++ "/blocks/blk00000.dat")
      = some ((s.obj cur).pchMessageStart.bytes ++ [l0, l1, l2, l3] ++ body)) :
    ((∃ nSize path, VerifyGenesisBlock E fopen s datadir genesisHash
        = .ret (.failure (.invalidBlockSize nSize path)))
      ↔ (ReadLE32 l0 l1 l2 l3 < 80 ∨ ReadLE32 l0 l1 l2 l3 > 2000000))
    ∧ (ReadLE32 l0 l1 l2 l3 < 80 ∨ ReadLE32 l0 l1 l2 l3 > 2000000 →
        VerifyGenesisBlock E fopen s datadir genesisHash
          = .ret (.failure (.invalidBlockSize (ReadLE32 l0 l1 l2 l3)
              (datadir ++ "/blocks/blk00000.dat"))))
    ∧ (ReadLE32 l0 l1 l2 l3 = 80 ∨ ReadLE32 l0 l1 l2 l3 = 2000000 →
        ¬ ∃ nSize path, VerifyGenesisBlock E fopen s datadir genesisHash
          = .ret (.failure (.invalidBlockSize nSize path)))
    ∧ (ReadLE32 l0 l1 l2 l3 = 10 ∨ ReadLE32 l0 l1 l2 l3 = 3000000 →
        ∃ nSize path, VerifyGenesisBlock E fopen s datadir genesisHash
          = .ret (.failure (.invalidBlockSize nSize path))) := by
  have key : (∃ nSize path, VerifyGenesisBlock E fopen s datadir genesisHash
        = .ret (.failure (.invalidBlockSize nSize path)))
      ↔ (ReadLE32 l0 l1 l2 l3 < 80 ∨ ReadLE32 l0 l1 l2 l3 > 2000000) := by
    rw [VerifyGenesisBlock_after_magic E fopen s datadir genesisHash cur l0 l1 l2 l3 body
      hsel hfile]
    by_cases hrange : ReadLE32 l0 l1 l2 l3 < 80 ∨ ReadLE32 l0 l1 l2 l3 > 2000000
    · simp only [hrange, if_true, iff_true]
      exact ⟨_, _, rfl⟩
    · simp only [hrange, if_false, iff_false]
      rintro ⟨nSize, path, h⟩
      cases hU : E.Unserialize body with
      | error what => simp [hU] at h
      | ok r =>
        obtain ⟨block, tail⟩ := r
        simp only [hU] at h
        split at h <;> simp at h
  refine ⟨key, ?_, ?_, ?_⟩
  · intro hrange
    rw [VerifyGenesisBlock_after_magic E fopen s datadir genesisHash cur l0 l1 l2 l3 body
      hsel hfile]
    simp only [hrange, if_true]
  · intro hb
    rw [key]
    omega
  · intro hb
    rw [key]
    omega

/-- Witness of C3: the regression-test block file with its length set to 10
fails with the invalid-block-size error. -/
theorem VerifyGenesisBlock_size_iff_witness :
    VerifyGenesisBlock samplePlatform
        (sampleFopen [0x54, 0x14, 0x64, 0x95, 10, 0, 0, 0, 0x8A, 0xC2, 0x3E, 0x5E, 1])
        sampleSelected "/data" 7
      = .ret (.failure (.invalidBlockSize 10 "/data/blocks/blk00000.dat")) :=
  (VerifyGenesisBlock_size_iff samplePlatform
    (sampleFopen [0x54, 0x14, 0x64, 0x95, 10, 0, 0, 0, 0x8A, 0xC2, 0x3E, 0x5E, 1])
    sampleSelected "/data" 7 .regTestParams 10 0 0 0 [0x8A, 0xC2, 0x3E, 0x5E, 1]
    (by rfl) (by rfl)).2.1 (by decide)

/-- C4: on a block file that opens and whose first four bytes differ from
the active network's magic bytes, the function fails with the invalid-magic
error that carries those four bytes, whatever bytes follow. -/
theorem VerifyGenesisBlock_rejects_magic (E : Platform)
    (fopen : String → Option (List Byte)) (s : Registry) (datadir : String)
    (genesisHash : uint256) (cur : Instance) (m0 m1 m2 m3 : Byte) (tail : List Byte)
    (hsel : Params s = .ret cur)
    (hfile : fopen (datadir ++ "/blocks/blk00000.dat") = some ([m0, m1, m2, m3] ++ tail))
    (hmagic : [m0, m1, m2, m3] ≠ (s.obj cur).pchMessageStart.bytes) :
    VerifyGenesisBlock E fopen s datadir genesisHash
      = .ret (.failure (.invalidMagic [m0, m1, m2, m3]
          (datadir ++ "/blocks/blk00000.dat"))) := by
  unfold VerifyGenesisBlock
  simp only [hfile, List.cons_append, List.nil_append, Option.isNone_some, CAutoFile.IsNull,
    CAutoFile.read_four, hsel, Run.bind]
  simp only [ne_eq, hmagic, not_false_eq_true, if_true, Bool.false_eq_true, if_false]

/-- Witness of C4: the regression-test block file with the third magic byte
changed from 0x64 to 0x65 fails with the invalid-magic error. -/
theorem VerifyGenesisBlock_rejects_magic_witness :
    VerifyGenesisBlock samplePlatform
        (sampleFopen [0x54, 0x14, 0x65, 0x95, 80, 0, 0, 0, 0x8A, 0xC2, 0x3E, 0x5E, 1])
        sampleSelected "/data"
        0x6a7fd108b4ef0aab9ce43734d66a04dc83ac4c49a5b3a3e23387dbfcdcaca765
      = .ret (.failure (.invalidMagic [0x54, 0x14, 0x65, 0x95] "/data/blocks/blk00000.dat")) :=
  VerifyGenesisBlock_rejects_magic samplePlatform
    (sampleFopen [0x54, 0x14, 0x65, 0x95, 80, 0, 0, 0, 0x8A, 0xC2, 0x3E, 0x5E, 1])
    sampleSelected "/data" 0x6a7fd108b4ef0aab9ce43734d66a04dc83ac4c49a5b3a3e23387dbfcdcaca765
    .regTestParams 0x54 0x14 0x65 0x95 [80, 0, 0, 0, 0x8A, 0xC2, 0x3E, 0x5E, 1]
    (by rfl) (by rfl) (by decide)

/-- C5: the code at a truncated file. On an empty block file the read of
the magic bytes fails and the exception leaves `VerifyGenesisBlock`, whatever
the platform, the state and the expected hash; on a file that ends inside
the length prefix (regression-test magic followed by two bytes, with that
network selected) the read of the length does the same. In both cases no
result is returned. -/
theorem VerifyGenesisBlock_truncated_header_throws :
    (∀ (E : Platform) (s : Registry) (genesisHash : uint256),
      VerifyGenesisBlock E (sampleFopen []) s "/data" genesisHash
        = .threw "CAutoFile::read : end of file")
    ∧ (∀ (E : Platform) (genesisHash : uint256),
      VerifyGenesisBlock E (sampleFopen [0x54, 0x14, 0x64, 0x95, 80, 0]) sampleSelected "/data"
          genesisHash
        = .threw "CAutoFile::read : end of file") := by
  constructor
  · intro E s genesisHash
    rfl
  · intro E genesisHash
    rfl

/-- C6: when the block file of a data directory cannot be opened, the
function returns failure with the open error for the attempted path, whose
text ends with that path; the state of the translation unit plays no part,
so the same holds with no network selected. -/
theorem VerifyGenesisBlock_open_failure (E : Platform)
    (fopen : String → Option (List Byte)) (s : Registry) (datadir : String)
    (genesisHash : uint256)
    (hfile : fopen (datadir ++ "/blocks/blk00000.dat") = none) :
    VerifyGenesisBlock E fopen s datadir genesisHash
      = .ret (.failure (.failedToOpen (datadir ++ "/blocks/blk00000.dat")))
    ∧ VerifyGenesisBlock E fopen { s with pCurrentParams := none } datadir genesisHash
      = .ret (.failure (.failedToOpen (datadir ++ "/blocks/blk00000.dat")))
    ∧ (VerifyError.failedToOpen (datadir ++ "/blocks/blk00000.dat")).message
      = "Failed to open file: " ++ (datadir ++ "/blocks/blk00000.dat") := by
  refine ⟨?_, ?_, rfl⟩
  · unfold VerifyGenesisBlock
    simp only [hfile, Option.isNone_none, if_true]
  · unfold VerifyGenesisBlock
    simp only [hfile, Option.isNone_none, if_true]

/-- Witness of C6: a data directory without a block file, before any network
has been selected. -/
theorem VerifyGenesisBlock_open_failure_witness :
    VerifyGenesisBlock samplePlatform (sampleFopen sampleBlockFile) sampleRegistry "/other" 7
      = .ret (.failure (.failedToOpen "/other/blocks/blk00000.dat"))
    ∧ ParamsSelected sampleRegistry = false :=
  ⟨(VerifyGenesisBlock_open_failure samplePlatform (sampleFopen sampleBlockFile)
      sampleRegistry "/other" 7 (by decide)).1, by rfl⟩

/-! ## Lemmas on construction and on calls -/

/-- A run that returns after a bind has returned in both parts. -/
theorem Run.bind_eq_ret {α β : Type} (r : Run α) (f : α → Run β) (b : β)
    (h : r.bind f = .ret b) : ∃ a, r = .ret a ∧ f a = .ret b := by
  cases r with
  | ret a => exact ⟨a, rfl, h⟩
  | assertFailed => simp [Run.bind] at h
  | exited => simp [Run.bind] at h
  | diverged => simp [Run.bind] at h
  | threw what => simp [Run.bind] at h

/-- Identity and port of a main object that has been constructed. -/
theorem CMainParams_identity (E : Platform) (fuel k : Nat) (pk : CChainParams × Nat)
    (h : CMainParams E fuel k = .ret pk) :
    pk.1.networkID = .MAIN ∧ pk.1.nDefaultPort = 32201 := by
  unfold CMainParams at h
  obtain ⟨gh, _, h2⟩ := Run.bind_eq_ret _ _ _ h
  simp only [Run.ret.injEq] at h2
  subst h2
  exact ⟨rfl, rfl⟩

/-- Identity and port of a test-network object that has been constructed. -/
theorem CTestNetParams_identity (E : Platform) (fuel k : Nat) (pk : CChainParams × Nat)
    (h : CTestNetParams E fuel k = .ret pk) :
    pk.1.networkID = .TESTNET ∧ pk.1.nDefaultPort = 32203 := by
  unfold CTestNetParams at h
  obtain ⟨m, _, h2⟩ := Run.bind_eq_ret _ _ _ h
  unfold CTestNetParams.body at h2
  obtain ⟨gh, _, h3⟩ := Run.bind_eq_ret _ _ _ h2
  simp only [Run.ret.injEq] at h3
  subst h3
  exact ⟨rfl, rfl⟩

/-- Identity and port of a regression-test object that has been constructed. -/
theorem CRegTestParams_identity (E : Platform) (fuel k : Nat) (pk : CChainParams × Nat)
    (h : CRegTestParams E fuel k = .ret pk) :
    pk.1.networkID = .REGTEST ∧ pk.1.nDefaultPort = 32205 := by
  unfold CRegTestParams at h
  obtain ⟨t, _, h2⟩ := Run.bind_eq_ret _ _ _ h
  unfold CRegTestParams.body at h2
  obtain ⟨gh, _, h3⟩ := Run.bind_eq_ret _ _ _ h2
  simp only [regenerate, Bool.false_eq_true, if_false, Run.ret.injEq] at h3
  subst h3
  exact ⟨rfl, rfl⟩

/-- Identity and port of a unit-test object that has been constructed. -/
theorem CUnitTestParams_identity (E : Platform) (fuel k : Nat) (pk : CChainParams × Nat)
    (h : CUnitTestParams E fuel k = .ret pk) :
    pk.1.networkID = .UNITTEST ∧ pk.1.nDefaultPort = 32207 := by
  unfold CUnitTestParams at h
  obtain ⟨m, _, h2⟩ := Run.bind_eq_ret _ _ _ h
  simp only [Run.ret.injEq] at h2
  subst h2
  exact ⟨rfl, rfl⟩

/-- Static initialisation leaves the pointer null and every object with its
own identity. -/
theorem staticInit_identity (E : Platform) (fuel : Nat) (s0 : Registry)
    (h : staticInit E fuel = .ret s0) :
    s0.pCurrentParams = none ∧ s0.IdentityFixed := by
  unfold staticInit at h
  obtain ⟨m, hm, h1⟩ := Run.bind_eq_ret _ _ _ h
  obtain ⟨t, ht, h2⟩ := Run.bind_eq_ret _ _ _ h1
  obtain ⟨r, hr, h3⟩ := Run.bind_eq_ret _ _ _ h2
  obtain ⟨u, hu, h4⟩ := Run.bind_eq_ret _ _ _ h3
  simp only [Run.ret.injEq] at h4
  subst h4
  exact ⟨rfl, CMainParams_identity E fuel _ m hm, CTestNetParams_identity E fuel _ t ht,
    CRegTestParams_identity E fuel _ r hr, CUnitTestParams_identity E fuel _ u hu⟩

/-- What a returning `SelectParams` has done: the pointer is the address
that `Params(network)` returns, and nothing else has changed. -/
theorem SelectParams_ret (E : Platform) (network : Network) (s s1 : Registry)
    (h : SelectParams E network s = .ret s1) :
    ∃ p, ParamsFor network = .ret p ∧ s1 = { s with pCurrentParams := some p } := by
  unfold SelectParams at h
  split at h
  · obtain ⟨p, hp, h2⟩ := Run.bind_eq_ret _ _ _ h
    simp only [Run.ret.injEq] at h2
    exact ⟨p, hp, h2.symm⟩
  · simp at h

/-- A valid network whose base selection returns is selected. -/
theorem SelectParams_valid (E : Platform) (network : Network) (s : Registry)
    (hvalid : network ≠ .MAX_NETWORK_TYPES) (hbase : E.SelectBaseParams network = true) :
    ∃ p, ParamsFor network = .ret p
      ∧ SelectParams E network s = .ret { s with pCurrentParams := some p } := by
  cases network with
  | MAX_NETWORK_TYPES => exact absurd rfl hvalid
  | MAIN => exact ⟨.mainParams, rfl, by simp [SelectParams, hbase, ParamsFor, Run.bind]⟩
  | TESTNET => exact ⟨.testNetParams, rfl, by simp [SelectParams, hbase, ParamsFor, Run.bind]⟩
  | REGTEST => exact ⟨.regTestParams, rfl, by simp [SelectParams, hbase, ParamsFor, Run.bind]⟩
  | UNITTEST => exact ⟨.unitTestParams, rfl, by simp [SelectParams, hbase, ParamsFor, Run.bind]⟩

/-- What any returning call leaves alone: the main, test and regression-test
objects, the identity of the unit-test object, and a pointer that was set
stays set. -/
theorem runCall_frame (E : Platform) (c : Call) (s s1 : Registry)
    (h : runCall E c s = .ret s1) :
    s1.mainParams = s.mainParams ∧ s1.testNetParams = s.testNetParams
    ∧ s1.regTestParams = s.regTestParams
    ∧ s1.unitTestParams.networkID = s.unitTestParams.networkID
    ∧ s1.unitTestParams.nDefaultPort = s.unitTestParams.nDefaultPort
    ∧ (ParamsSelected s = true → ParamsSelected s1 = true) := by
  cases c with
  | ModifiableParams =>
    obtain ⟨_, _, h2⟩ := Run.bind_eq_ret _ _ _ h
    simp only [Run.ret.injEq] at h2
    subst h2
    simp
  | ParamsSelected =>
    simp only [runCall, Run.ret.injEq] at h
    subst h
    simp
  | Params =>
    obtain ⟨_, _, h2⟩ := Run.bind_eq_ret _ _ _ h
    simp only [Run.ret.injEq] at h2
    subst h2
    simp
  | ParamsFor network =>
    obtain ⟨_, _, h2⟩ := Run.bind_eq_ret _ _ _ h
    simp only [Run.ret.injEq] at h2
    subst h2
    simp
  | SelectParams network =>
    obtain ⟨p, _, h2⟩ := SelectParams_ret E network s s1 h
    subst h2
    simp [ParamsSelected]
  | SelectParamsFromCommandLine network =>
    obtain ⟨r, hr, h2⟩ := Run.bind_eq_ret _ _ _ h
    simp only [Run.ret.injEq] at h2
    subst h2
    unfold SelectParamsFromCommandLine at hr
    split at hr
    · simp only [Run.ret.injEq] at hr
      subst hr
      simp
    · obtain ⟨s2, hs2, h3⟩ := Run.bind_eq_ret _ _ _ hr
      simp only [Run.ret.injEq] at h3
      subst h3
      obtain ⟨p, _, h4⟩ := SelectParams_ret E network s s2 hs2
      subst h4
      simp [ParamsSelected]
  | GetBlockChainSize =>
    simp only [runCall, Run.ret.injEq] at h
    subst h
    simp
  | VerifyGenesisBlock fopen datadir genesisHash =>
    obtain ⟨_, _, h2⟩ := Run.bind_eq_ret _ _ _ h
    simp only [Run.ret.injEq] at h2
    subst h2
    simp
  | setEnforceBlockUpgradeMajority v =>
    simp only [runCall, Run.ret.injEq] at h
    subst h
    simp [setEnforceBlockUpgradeMajority, ParamsSelected]
  | setRejectBlockOutdatedMajority v =>
    simp only [runCall, Run.ret.injEq] at h
    subst h
    simp [setRejectBlockOutdatedMajority, ParamsSelected]
  | setToCheckBlockUpgradeMajority v =>
    simp only [runCall, Run.ret.injEq] at h
    subst h
    simp [setToCheckBlockUpgradeMajority, ParamsSelected]
  | setDefaultConsistencyChecks v =>
    simp only [runCall, Run.ret.injEq] at h
    subst h
    simp [setDefaultConsistencyChecks, ParamsSelected]
  | setAllowMinDifficultyBlocks v =>
    simp only [runCall, Run.ret.injEq] at h
    subst h
    simp [setAllowMinDifficultyBlocks, ParamsSelected]
  | setSkipProofOfWorkCheck v =>
    simp only [runCall, Run.ret.injEq] at h
    subst h
    simp [setSkipProofOfWorkCheck, ParamsSelected]

/-- Every reachable state keeps the identities that static initialisation
gave the four objects. -/
theorem Reachable.identityFixed (E : Platform) (fuel : Nat) (s0 s : Registry)
    (hinit : staticInit E fuel = .ret s0) (hreach : Reachable E s0 s) :
    s.IdentityFixed := by
  induction hreach with
  | init => exact (staticInit_identity E fuel s0 hinit).2
  | step c _ hrun ih =>
    obtain ⟨hm, ht, hr, hu1, hu2, _⟩ := runCall_frame E c _ _ hrun
    unfold Registry.IdentityFixed at ih ⊢
    rw [hm, ht, hr, hu1, hu2]
    exact ih

/-! ## Selection and lookup: the claims -/

/-- C7: for every network identifier among Main, Test, RegTest and UnitTest
and every prior state, `SelectParams(id)` returns (given that the base
selection does) and afterwards `Params()` is the very object that
`Params(id)` returns. When the prior state is one the program can be in and
the identifier is RegTest, the default port read through `Params()` is
32205, while the Main and Test objects carry 32201 and 32203. -/
theorem SelectParams_makes_current (E : Platform) (s : Registry) (network : Network)
    (hvalid : network ≠ .MAX_NETWORK_TYPES) (hbase : E.SelectBaseParams network = true) :
    ∃ s1 p, SelectParams E network s = .ret s1 ∧ ParamsFor network = .ret p
      ∧ Params s1 = .ret p
      ∧ (∀ fuel s0, staticInit E fuel = .ret s0 → Reachable E s0 s → network = .REGTEST →
          (s1.obj p).nDefaultPort = 32205
          ∧ (s1.obj .mainParams).nDefaultPort = 32201
          ∧ (s1.obj .testNetParams).nDefaultPort = 32203) := by
  obtain ⟨p, hp, hsel⟩ := SelectParams_valid E network s hvalid hbase
  refine ⟨_, p, hsel, hp, rfl, ?_⟩
  intro fuel s0 hinit hreach hreg
  subst hreg
  simp only [ParamsFor, Run.ret.injEq] at hp
  subst hp
  obtain ⟨hm, ht, hr, _⟩ := Reachable.identityFixed E fuel s0 s hinit hreach
  exact ⟨hr.2, hm.2, ht.2⟩

/-- Witness of C7: on the sample platform, selecting RegTest in the state
right after static initialisation makes the regression-test object current,
with default port 32205. -/
theorem SelectParams_makes_current_witness :
    SelectParams samplePlatform .REGTEST sampleRegistry = .ret sampleSelected
    ∧ Params sampleSelected = .ret .regTestParams
    ∧ (sampleSelected.obj .regTestParams).nDefaultPort = 32205 := by
  obtain ⟨s1, p, h1, h2, h3, h4⟩ :=
    SelectParams_makes_current samplePlatform sampleRegistry .REGTEST (by decide) (by rfl)
  have hs : SelectParams samplePlatform .REGTEST sampleRegistry = .ret sampleSelected := by rfl
  have h5 := (h4 0 sampleRegistry (by rfl) Reachable.init rfl).1
  rw [hs, Run.ret.injEq] at h1
  subst h1
  simp only [ParamsFor, Run.ret.injEq] at h2
  subst h2
  exact ⟨hs, h3, h5⟩

/-- C8: in the state that static initialisation leaves, `ParamsSelected()`
is false and `Params()` fails its assertion; after `SelectParams(id)` with a
valid identifier (whose base selection returns), from any state,
`ParamsSelected()` is true and `Params()` returns; and no returning call of
the translation unit leads from a selected state to an unselected one. -/
theorem Params_selected_lifecycle (E : Platform) (fuel : Nat) (s0 : Registry)
    (hinit : staticInit E fuel = .ret s0) :
    (ParamsSelected s0 = false ∧ Params s0 = .assertFailed)
    ∧ (∀ (s : Registry) (network : Network), network ≠ .MAX_NETWORK_TYPES →
        E.SelectBaseParams network = true →
        ∃ s1 p, SelectParams E network s = .ret s1 ∧ ParamsSelected s1 = true
          ∧ Params s1 = .ret p)
    ∧ (∀ (s s1 : Registry) (c : Call), ParamsSelected s = true → runCall E c s = .ret s1 →
        ParamsSelected s1 = true) := by
  refine ⟨?_, ?_, ?_⟩
  · have h0 := (staticInit_identity E fuel s0 hinit).1
    simp [ParamsSelected, Params, h0]
  · intro s network hvalid hbase
    obtain ⟨p, _, hsel⟩ := SelectParams_valid E network s hvalid hbase
    exact ⟨_, p, hsel, by simp [ParamsSelected], rfl⟩
  · intro s s1 c hs hrun
    exact (runCall_frame E c s s1 hrun).2.2.2.2.2 hs

/-- Witness of C8: the sample state after static initialisation has no
network selected, and `Params()` fails its assertion there. -/
theorem Params_selected_lifecycle_witness :
    ParamsSelected sampleRegistry = false ∧ Params sampleRegistry = .assertFailed :=
  (Params_selected_lifecycle samplePlatform 0 sampleRegistry (by rfl)).1

/-- C9: in every state the program can be in, `Params(id)` for a network
identifier among Main, Test, RegTest and UnitTest returns an object whose
`networkID` is `id`; the object is the same whatever the pointer is (after
any `SelectParams`, or with the pointer null), and the call leaves the state,
and with it the selection, as it was. -/
theorem ParamsFor_lookup (E : Platform) (fuel : Nat) (s0 s : Registry) (network : Network)
    (hinit : staticInit E fuel = .ret s0) (hreach : Reachable E s0 s)
    (hvalid : network ≠ .MAX_NETWORK_TYPES) :
    ∃ p, ParamsFor network = .ret p
      ∧ (s.obj p).networkID = network
      ∧ (∀ other s1, SelectParams E other s = .ret s1 → s1.obj p = s.obj p)
      ∧ ({ s with pCurrentParams := none } : Registry).obj p = s.obj p
      ∧ runCall E (.ParamsFor network) s = .ret s := by
  obtain ⟨hm, ht, hr, hu⟩ := Reachable.identityFixed E fuel s0 s hinit hreach
  have hframe : ∀ p other s1, SelectParams E other s = .ret s1 → s1.obj p = s.obj p := by
    intro p other s1 hsel
    obtain ⟨q, _, h2⟩ := SelectParams_ret E other s s1 hsel
    subst h2
    cases p <;> rfl
  cases network with
  | MAX_NETWORK_TYPES => exact absurd rfl hvalid
  | MAIN => exact ⟨.mainParams, rfl, hm.1, hframe _, rfl, rfl⟩
  | TESTNET => exact ⟨.testNetParams, rfl, ht.1, hframe _, rfl, rfl⟩
  | REGTEST => exact ⟨.regTestParams, rfl, hr.1, hframe _, rfl, rfl⟩
  | UNITTEST => exact ⟨.unitTestParams, rfl, hu.1, hframe _, rfl, rfl⟩

/-- Witness of C9: with RegTest selected on the sample platform,
`Params(UNITTEST)` is the unit-test object and the selection stays. -/
theorem ParamsFor_lookup_witness :
    ParamsFor .UNITTEST = .ret .unitTestParams
    ∧ (sampleSelected.obj .unitTestParams).networkID = .UNITTEST
    ∧ runCall samplePlatform (.ParamsFor .UNITTEST) sampleSelected = .ret sampleSelected := by
  obtain ⟨p, h1, h2, _, _, h5⟩ :=
    ParamsFor_lookup samplePlatform 0 sampleRegistry sampleSelected .UNITTEST (by rfl)
      (Reachable.step (.SelectParams .REGTEST) Reachable.init (by rfl)) (by decide)
  have hp : ParamsFor .UNITTEST = .ret .unitTestParams := rfl
  rw [hp, Run.ret.injEq] at h1
  subst h1
  exact ⟨hp, h2, h5⟩

/-- C10: each of the six unit-test setters, for every argument value, gives
its one field of `unitTestParams` that value; putting the old value of that
field back yields the old `unitTestParams`, so no other field of it has
changed; and the Main, Test and RegTest objects and the pointer are as
before. -/
theorem setters_change_one_field (s : Registry) (n : Int) (b : Bool) :
    ((setEnforceBlockUpgradeMajority n s).unitTestParams.nEnforceBlockUpgradeMajority = n
      ∧ { (setEnforceBlockUpgradeMajority n s).unitTestParams with
            nEnforceBlockUpgradeMajority := s.unitTestParams.nEnforceBlockUpgradeMajority }
          = s.unitTestParams
      ∧ s.SameOutsideUnitTest (setEnforceBlockUpgradeMajority n s))
    ∧ ((setRejectBlockOutdatedMajority n s).unitTestParams.nRejectBlockOutdatedMajority = n
      ∧ { (setRejectBlockOutdatedMajority n s).unitTestParams with
            nRejectBlockOutdatedMajority := s.unitTestParams.nRejectBlockOutdatedMajority }
          = s.unitTestParams
      ∧ s.SameOutsideUnitTest (setRejectBlockOutdatedMajority n s))
    ∧ ((setToCheckBlockUpgradeMajority n s).unitTestParams.nToCheckBlockUpgradeMajority = n
      ∧ { (setToCheckBlockUpgradeMajority n s).unitTestParams with
            nToCheckBlockUpgradeMajority := s.unitTestParams.nToCheckBlockUpgradeMajority }
          = s.unitTestParams
      ∧ s.SameOutsideUnitTest (setToCheckBlockUpgradeMajority n s))
    ∧ ((setDefaultConsistencyChecks b s).unitTestParams.fDefaultConsistencyChecks = b
      ∧ { (setDefaultConsistencyChecks b s).unitTestParams with
            fDefaultConsistencyChecks := s.unitTestParams.fDefaultConsistencyChecks }
          = s.unitTestParams
      ∧ s.SameOutsideUnitTest (setDefaultConsistencyChecks b s))
    ∧ ((setAllowMinDifficultyBlocks b s).unitTestParams.fAllowMinDifficultyBlocks = b
      ∧ { (setAllowMinDifficultyBlocks b s).unitTestParams with
            fAllowMinDifficultyBlocks := s.unitTestParams.fAllowMinDifficultyBlocks }
          = s.unitTestParams
      ∧ s.SameOutsideUnitTest (setAllowMinDifficultyBlocks b s))
    ∧ ((setSkipProofOfWorkCheck b s).unitTestParams.fSkipProofOfWorkCheck = b
      ∧ { (setSkipProofOfWorkCheck b s).unitTestParams with
            fSkipProofOfWorkCheck := s.unitTestParams.fSkipProofOfWorkCheck }
          = s.unitTestParams
      ∧ s.SameOutsideUnitTest (setSkipProofOfWorkCheck b s)) := by
  refine ⟨⟨rfl, rfl, rfl, rfl, rfl, rfl⟩, ⟨rfl, rfl, rfl, rfl, rfl, rfl⟩,
    ⟨rfl, rfl, rfl, rfl, rfl, rfl⟩, ⟨rfl, rfl, rfl, rfl, rfl, rfl⟩,
    ⟨rfl, rfl, rfl, rfl, rfl, rfl⟩, ⟨rfl, rfl, rfl, rfl, rfl, rfl⟩⟩

/-! ## Lemmas on the genesis check and the constructors -/

/-- With the flag as it stands, the genesis check is its assertion branch. -/
theorem genesisBlockCheck_normal (E : Platform) (fuel : Nat) (resetNonce : Bool)
    (expected : uint256) (genesis : CBlock) :
    genesisBlockCheck E regenerate fuel resetNonce expected genesis =
      if E.GetHash genesis ≠ expected then .assertFailed
      else if genesis.hashMerkleRoot ≠ expectedMerkleRoot then .assertFailed
      else .ret (genesis, E.GetHash genesis) := by
  simp [genesisBlockCheck, regenerate]

/-- A genesis check that returns has found both assertions true and hands
back the block unchanged with its hash. -/
theorem genesisBlockCheck_ret (E : Platform) (fuel : Nat) (resetNonce : Bool)
    (expected : uint256) (genesis : CBlock) (gh : CBlock × uint256)
    (h : genesisBlockCheck E regenerate fuel resetNonce expected genesis = .ret gh) :
    gh = (genesis, expected) ∧ E.GetHash genesis = expected
      ∧ genesis.hashMerkleRoot = expectedMerkleRoot := by
  rw [genesisBlockCheck_normal] at h
  by_cases h1 : E.GetHash genesis = expected
  · by_cases h2 : genesis.hashMerkleRoot = expectedMerkleRoot
    · simp [h1, h2] at h
      exact ⟨h.symm, h1, h2⟩
    · simp [h1, h2] at h
  · simp [h1] at h

/-- A genesis check whose two assertions hold returns. -/
theorem genesisBlockCheck_pass (E : Platform) (fuel : Nat) (resetNonce : Bool)
    (expected : uint256) (genesis : CBlock)
    (h1 : E.GetHash genesis = expected) (h2 : genesis.hashMerkleRoot = expectedMerkleRoot) :
    genesisBlockCheck E regenerate fuel resetNonce expected genesis
      = .ret (genesis, expected) := by
  rw [genesisBlockCheck_normal]
  simp [h1, h2]

/-- A genesis check with a false assertion aborts. -/
theorem genesisBlockCheck_abort (E : Platform) (fuel : Nat) (resetNonce : Bool)
    (expected : uint256) (genesis : CBlock)
    (h : ¬ (E.GetHash genesis = expected ∧ genesis.hashMerkleRoot = expectedMerkleRoot)) :
    genesisBlockCheck E regenerate fuel resetNonce expected genesis = .assertFailed := by
  rw [genesisBlockCheck_normal]
  by_cases h1 : E.GetHash genesis = expected
  · have h2 : ¬ genesis.hashMerkleRoot = expectedMerkleRoot := fun h2 => h ⟨h1, h2⟩
    simp [h1, h2]
  · simp [h1]

/-- What a constructed main object holds: the main genesis block, its hash,
which is the asserted constant, and the proof-of-work limit. -/
theorem CMainParams_genesis (E : Platform) (fuel k : Nat) (pk : CChainParams × Nat)
    (h : CMainParams E fuel k = .ret pk) :
    pk.1.genesis = CMainParams.genesis E
    ∧ pk.1.hashGenesisBlock = expectedGenesisHash .mainParams
    ∧ E.GetHash (CMainParams.genesis E) = expectedGenesisHash .mainParams
    ∧ (CMainParams.genesis E).hashMerkleRoot = expectedMerkleRoot
    ∧ pk.1.bnProofOfWorkLimit = (2 ^ 256 - 1) / 2 := by
  unfold CMainParams at h
  obtain ⟨gh, hgh, h2⟩ := Run.bind_eq_ret _ _ _ h
  obtain ⟨hg, hh, hm⟩ := genesisBlockCheck_ret E fuel true _ _ gh hgh
  simp only [Run.ret.injEq] at h2
  subst h2
  subst hg
  exact ⟨rfl, rfl, hh, hm, rfl⟩

/-- Two main objects, constructed at any two points, differ at most in the
fixed seeds. -/
theorem CMainParams_agree (E : Platform) (fuel k fuel1 k1 : Nat) (pk pk1 : CChainParams × Nat)
    (h : CMainParams E fuel k = .ret pk) (h1 : CMainParams E fuel1 k1 = .ret pk1) :
    { pk1.1 with vFixedSeeds := pk.1.vFixedSeeds } = pk.1 := by
  unfold CMainParams at h h1
  obtain ⟨gh, hgh, h2⟩ := Run.bind_eq_ret _ _ _ h
  obtain ⟨gh1, hgh1, h3⟩ := Run.bind_eq_ret _ _ _ h1
  obtain ⟨hg, _, _⟩ := genesisBlockCheck_ret E fuel true _ _ gh hgh
  obtain ⟨hg1, _, _⟩ := genesisBlockCheck_ret E fuel1 true _ _ gh1 hgh1
  simp only [Run.ret.injEq] at h2 h3
  subst h2 h3 hg hg1
  rfl

/-- The main constructor returns when its two assertions hold and aborts
otherwise. -/
theorem CMainParams_total (E : Platform) (fuel k : Nat) :
    (E.GetHash (CMainParams.genesis E) = expectedGenesisHash .mainParams
        ∧ (CMainParams.genesis E).hashMerkleRoot = expectedMerkleRoot →
      ∃ pk, CMainParams E fuel k = .ret pk)
    ∧ (¬ (E.GetHash (CMainParams.genesis E) = expectedGenesisHash .mainParams
        ∧ (CMainParams.genesis E).hashMerkleRoot = expectedMerkleRoot) →
      CMainParams E fuel k = .assertFailed) := by
  constructor
  · intro hok
    have hc : genesisBlockCheck E regenerate fuel true
        0x30ef80527cafd9e8685412f85e30efc2ffbfa15398c2852fe5ba0ace7f6cb741
        (CMainParams.genesis E) = .ret (CMainParams.genesis E, _) :=
      genesisBlockCheck_pass E fuel true _ (CMainParams.genesis E) hok.1 hok.2
    unfold CMainParams
    exact ⟨_, by
      show Run.bind (genesisBlockCheck E regenerate fuel true _ (CMainParams.genesis E)) _ = _
      rw [hc]
      rfl⟩
  · intro hbad
    have hc : genesisBlockCheck E regenerate fuel true
        0x30ef80527cafd9e8685412f85e30efc2ffbfa15398c2852fe5ba0ace7f6cb741
        (CMainParams.genesis E) = .assertFailed :=
      genesisBlockCheck_abort E fuel true _ (CMainParams.genesis E) hbad
    unfold CMainParams
    show Run.bind (genesisBlockCheck E regenerate fuel true _ (CMainParams.genesis E)) _ = _
    rw [hc]
    rfl

/-- What a constructed test-network object holds: the test genesis block,
its hash, which is the asserted constant, and the proof-of-work limit. -/
theorem CTestNetParams_genesis (E : Platform) (fuel k : Nat) (pk : CChainParams × Nat)
    (h : CTestNetParams E fuel k = .ret pk) :
    pk.1.genesis = CTestNetParams.genesis E
    ∧ pk.1.hashGenesisBlock = expectedGenesisHash .testNetParams
    ∧ E.GetHash (CTestNetParams.genesis E) = expectedGenesisHash .testNetParams
    ∧ (CTestNetParams.genesis E).hashMerkleRoot = expectedMerkleRoot
    ∧ pk.1.bnProofOfWorkLimit = (2 ^ 256 - 1) / 2 := by
  unfold CTestNetParams at h
  obtain ⟨m, hm, hbody⟩ := Run.bind_eq_ret _ _ _ h
  obtain ⟨hmg, _, _, _, hml⟩ := CMainParams_genesis E fuel k m hm
  unfold CTestNetParams.body at hbody
  obtain ⟨gh, hgh, h2⟩ := Run.bind_eq_ret _ _ _ hbody
  rw [hmg] at hgh
  obtain ⟨hg, hh, hmr⟩ := genesisBlockCheck_ret E fuel true _ _ gh hgh
  simp only [Run.ret.injEq] at h2
  subst h2
  subst hg
  exact ⟨rfl, rfl, hh, hmr, hml⟩

/-- Two test-network objects, constructed at any two points, differ at most
in the fixed seeds. -/
theorem CTestNetParams_agree (E : Platform) (fuel k fuel1 k1 : Nat)
    (pk pk1 : CChainParams × Nat)
    (h : CTestNetParams E fuel k = .ret pk) (h1 : CTestNetParams E fuel1 k1 = .ret pk1) :
    { pk1.1 with vFixedSeeds := pk.1.vFixedSeeds } = pk.1 := by
  unfold CTestNetParams at h h1
  obtain ⟨m, hm, hbody⟩ := Run.bind_eq_ret _ _ _ h
  obtain ⟨m1, hm1, hbody1⟩ := Run.bind_eq_ret _ _ _ h1
  have hagree := CMainParams_agree E fuel k fuel1 k1 m m1 hm hm1
  obtain ⟨mp, mk⟩ := m
  obtain ⟨mp1, mk1⟩ := m1
  simp only at hagree hbody hbody1
  generalize mp.vFixedSeeds = seeds at hagree
  subst hagree
  unfold CTestNetParams.body at hbody hbody1
  obtain ⟨gh, hgh, h2⟩ := Run.bind_eq_ret _ _ _ hbody
  obtain ⟨gh1, hgh1, h3⟩ := Run.bind_eq_ret _ _ _ hbody1
  obtain ⟨hg, _, _⟩ := genesisBlockCheck_ret E fuel true _ _ gh hgh
  obtain ⟨hg1, _, _⟩ := genesisBlockCheck_ret E fuel1 true _ _ gh1 hgh1
  simp only [Run.ret.injEq] at h2 h3
  subst h2 h3 hg hg1
  rfl

/-- The test-network constructor returns when the assertions of the main
constructor and its own hold, and aborts otherwise. -/
theorem CTestNetParams_total (E : Platform) (fuel k : Nat) :
    (E.GetHash (CMainParams.genesis E) = expectedGenesisHash .mainParams
        ∧ (CMainParams.genesis E).hashMerkleRoot = expectedMerkleRoot
        ∧ E.GetHash (CTestNetParams.genesis E) = expectedGenesisHash .testNetParams →
      ∃ pk, CTestNetParams E fuel k = .ret pk)
    ∧ (¬ (E.GetHash (CMainParams.genesis E) = expectedGenesisHash .mainParams
        ∧ (CMainParams.genesis E).hashMerkleRoot = expectedMerkleRoot
        ∧ E.GetHash (CTestNetParams.genesis E) = expectedGenesisHash .testNetParams) →
      CTestNetParams E fuel k = .assertFailed) := by
  have hbody : ∀ m : CChainParams × Nat, CMainParams E fuel k = .ret m →
      (E.GetHash (CTestNetParams.genesis E) = expectedGenesisHash .testNetParams →
        ∃ pk, CTestNetParams.body E fuel m.1 m.2 = .ret pk)
      ∧ (¬ E.GetHash (CTestNetParams.genesis E) = expectedGenesisHash .testNetParams →
        CTestNetParams.body E fuel m.1 m.2 = .assertFailed) := by
    intro m hm
    obtain ⟨hmg, _, _, hmr, _⟩ := CMainParams_genesis E fuel k m hm
    constructor
    · intro hok
      have hc : genesisBlockCheck E regenerate fuel true
          0x554ec25d2f508143b7b137727a0f04052c405b01a1e3a2a42eebf943c316266d
          { m.1.genesis with nTime := 1581171337, nNonce := 0 }
          = .ret (CTestNetParams.genesis E,
              0x554ec25d2f508143b7b137727a0f04052c405b01a1e3a2a42eebf943c316266d) := by
        rw [hmg]
        exact genesisBlockCheck_pass E fuel true _ (CTestNetParams.genesis E) hok hmr
      unfold CTestNetParams.body
      exact ⟨_, by
        show Run.bind (genesisBlockCheck E regenerate fuel true _
          { m.1.genesis with nTime := 1581171337, nNonce := 0 }) _ = _
        rw [hc]
        rfl⟩
    · intro hbad
      have hc : genesisBlockCheck E regenerate fuel true
          0x554ec25d2f508143b7b137727a0f04052c405b01a1e3a2a42eebf943c316266d
          { m.1.genesis with nTime := 1581171337, nNonce := 0 } = .assertFailed := by
        rw [hmg]
        exact genesisBlockCheck_abort E fuel true _ (CTestNetParams.genesis E)
          (fun hboth => hbad hboth.1)
      unfold CTestNetParams.body
      show Run.bind (genesisBlockCheck E regenerate fuel true _
        { m.1.genesis with nTime := 1581171337, nNonce := 0 }) _ = _
      rw [hc]
      rfl
  obtain ⟨hmok, hmbad⟩ := CMainParams_total E fuel k
  constructor
  · intro hok
    obtain ⟨m, hm⟩ := hmok ⟨hok.1, hok.2.1⟩
    obtain ⟨pk, hpk⟩ := (hbody m hm).1 hok.2.2
    exact ⟨pk, by unfold CTestNetParams; rw [hm]; exact hpk⟩
  · intro hbad
    by_cases hmain : E.GetHash (CMainParams.genesis E) = expectedGenesisHash .mainParams
        ∧ (CMainParams.genesis E).hashMerkleRoot = expectedMerkleRoot
    · obtain ⟨m, hm⟩ := hmok hmain
      have htest : ¬ E.GetHash (CTestNetParams.genesis E)
          = expectedGenesisHash .testNetParams := fun ht => hbad ⟨hmain.1, hmain.2, ht⟩
      unfold CTestNetParams
      rw [hm]
      exact (hbody m hm).2 htest
    · unfold CTestNetParams
      rw [hmbad hmain]
      rfl

/-- What a constructed regression-test object holds: the regression-test
genesis block, its hash, which is the asserted constant, and the
proof-of-work limit. -/
theorem CRegTestParams_genesis (E : Platform) (fuel k : Nat) (pk : CChainParams × Nat)
    (h : CRegTestParams E fuel k = .ret pk) :
    pk.1.genesis = CRegTestParams.genesis E
    ∧ pk.1.hashGenesisBlock = expectedGenesisHash .regTestParams
    ∧ E.GetHash (CRegTestParams.genesis E) = expectedGenesisHash .regTestParams
    ∧ (CRegTestParams.genesis E).hashMerkleRoot = expectedMerkleRoot
    ∧ pk.1.bnProofOfWorkLimit = (2 ^ 256 - 1) / 2 := by
  unfold CRegTestParams at h
  obtain ⟨t, ht, hbody⟩ := Run.bind_eq_ret _ _ _ h
  obtain ⟨htg, _, _, _, _⟩ := CTestNetParams_genesis E fuel k t ht
  unfold CRegTestParams.body at hbody
  obtain ⟨gh, hgh, h2⟩ := Run.bind_eq_ret _ _ _ hbody
  rw [htg] at hgh
  obtain ⟨hg, hh, hmr⟩ := genesisBlockCheck_ret E fuel false _ _ gh hgh
  simp only [regenerate, Bool.false_eq_true, if_false, Run.ret.injEq] at h2
  subst h2
  subst hg
  exact ⟨rfl, rfl, hh, hmr, rfl⟩

/-- The regression-test constructor returns when the assertions of the main
and test-network constructors and its own hold, and aborts otherwise. -/
theorem CRegTestParams_total (E : Platform) (fuel k : Nat) :
    (GenesisAssertionsHold E → ∃ pk, CRegTestParams E fuel k = .ret pk)
    ∧ (¬ GenesisAssertionsHold E → CRegTestParams E fuel k = .assertFailed) := by
  have hbody : ∀ t : CChainParams × Nat, CTestNetParams E fuel k = .ret t →
      (E.GetHash (CRegTestParams.genesis E) = expectedGenesisHash .regTestParams →
        ∃ pk, CRegTestParams.body E fuel t.1 t.2 = .ret pk)
      ∧ (¬ E.GetHash (CRegTestParams.genesis E) = expectedGenesisHash .regTestParams →
        CRegTestParams.body E fuel t.1 t.2 = .assertFailed) := by
    intro t ht
    obtain ⟨htg, _, _, hmr, _⟩ := CTestNetParams_genesis E fuel k t ht
    constructor
    · intro hok
      have hc : genesisBlockCheck E regenerate fuel false
          0x6a7fd108b4ef0aab9ce43734d66a04dc83ac4c49a5b3a3e23387dbfcdcaca765
          { t.1.genesis with nTime := 1581171338, nBits := 0x207fffff, nNonce := 1 }
          = .ret (CRegTestParams.genesis E,
              0x6a7fd108b4ef0aab9ce43734d66a04dc83ac4c49a5b3a3e23387dbfcdcaca765) := by
        rw [htg]
        exact genesisBlockCheck_pass E fuel false _ (CRegTestParams.genesis E) hok hmr
      unfold CRegTestParams.body
      exact ⟨_, by
        show Run.bind (genesisBlockCheck E regenerate fuel false _
          { t.1.genesis with nTime := 1581171338, nBits := 0x207fffff, nNonce := 1 }) _ = _
        rw [hc]
        rfl⟩
    · intro hbad
      have hc : genesisBlockCheck E regenerate fuel false
          0x6a7fd108b4ef0aab9ce43734d66a04dc83ac4c49a5b3a3e23387dbfcdcaca765
          { t.1.genesis with nTime := 1581171338, nBits := 0x207fffff, nNonce := 1 }
          = .assertFailed := by
        rw [htg]
        exact genesisBlockCheck_abort E fuel false _ (CRegTestParams.genesis E)
          (fun hboth => hbad hboth.1)
      unfold CRegTestParams.body
      show Run.bind (genesisBlockCheck E regenerate fuel false _
        { t.1.genesis with nTime := 1581171338, nBits := 0x207fffff, nNonce := 1 }) _ = _
      rw [hc]
      rfl
  obtain ⟨htok, htbad⟩ := CTestNetParams_total E fuel k
  constructor
  · intro hok
    obtain ⟨hm, ht, hr, hroot⟩ := hok
    obtain ⟨t, htret⟩ := htok ⟨hm, hroot, ht⟩
    obtain ⟨pk, hpk⟩ := (hbody t htret).1 hr
    exact ⟨pk, by unfold CRegTestParams; rw [htret]; exact hpk⟩
  · intro hbad
    by_cases htest : E.GetHash (CMainParams.genesis E) = expectedGenesisHash .mainParams
        ∧ (CMainParams.genesis E).hashMerkleRoot = expectedMerkleRoot
        ∧ E.GetHash (CTestNetParams.genesis E) = expectedGenesisHash .testNetParams
    · obtain ⟨t, htret⟩ := htok htest
      have hreg : ¬ E.GetHash (CRegTestParams.genesis E)
          = expectedGenesisHash .regTestParams :=
        fun hr => hbad ⟨htest.1, htest.2.2, hr, htest.2.1⟩
      unfold CRegTestParams
      rw [htret]
      exact (hbody t htret).2 hreg
    · unfold CRegTestParams
      rw [htbad htest]
      rfl

/-- What a constructed unit-test object holds: the main genesis block and
hash, and the proof-of-work limit. -/
theorem CUnitTestParams_genesis (E : Platform) (fuel k : Nat) (pk : CChainParams × Nat)
    (h : CUnitTestParams E fuel k = .ret pk) :
    pk.1.genesis = CMainParams.genesis E
    ∧ pk.1.hashGenesisBlock = expectedGenesisHash .unitTestParams
    ∧ pk.1.bnProofOfWorkLimit = (2 ^ 256 - 1) / 2 := by
  unfold CUnitTestParams at h
  obtain ⟨m, hm, h2⟩ := Run.bind_eq_ret _ _ _ h
  obtain ⟨hmg, hmh, _, _, hml⟩ := CMainParams_genesis E fuel k m hm
  simp only [Run.ret.injEq] at h2
  subst h2
  exact ⟨hmg, hmh, hml⟩

/-- The parts of a returning static initialisation: the four constructor
runs behind the four objects. -/
theorem staticInit_parts (E : Platform) (fuel : Nat) (s0 : Registry)
    (h : staticInit E fuel = .ret s0) :
    ∃ (m t r u : CChainParams × Nat) (k1 k2 k3 : Nat),
      CMainParams E fuel 0 = .ret m ∧ CTestNetParams E fuel k1 = .ret t
      ∧ CRegTestParams E fuel k2 = .ret r ∧ CUnitTestParams E fuel k3 = .ret u
      ∧ s0 = { mainParams := m.1, testNetParams := t.1, regTestParams := r.1,
               unitTestParams := u.1, pCurrentParams := none } := by
  unfold staticInit at h
  obtain ⟨m, hm, h1⟩ := Run.bind_eq_ret _ _ _ h
  obtain ⟨t, ht, h2⟩ := Run.bind_eq_ret _ _ _ h1
  obtain ⟨r, hr, h3⟩ := Run.bind_eq_ret _ _ _ h2
  obtain ⟨u, hu, h4⟩ := Run.bind_eq_ret _ _ _ h3
  simp only [Run.ret.injEq] at h4
  exact ⟨m, t, r, u, _, _, _, hm, ht, hr, hu, h4.symm⟩

/-- Static initialisation returns when all assertions of the constructors
hold and aborts on a failed assertion otherwise; it ends in no other way. -/
theorem staticInit_total (E : Platform) (fuel : Nat) :
    (GenesisAssertionsHold E → ∃ s0, staticInit E fuel = .ret s0)
    ∧ (¬ GenesisAssertionsHold E → staticInit E fuel = .assertFailed) := by
  constructor
  · intro hok
    obtain ⟨hm, ht, hr, hroot⟩ := hok
    obtain ⟨m, hmret⟩ := (CMainParams_total E fuel 0).1 ⟨hm, hroot⟩
    obtain ⟨t, htret⟩ := (CTestNetParams_total E fuel m.2).1 ⟨hm, hroot, ht⟩
    obtain ⟨r, hrret⟩ := (CRegTestParams_total E fuel t.2).1 ⟨hm, ht, hr, hroot⟩
    obtain ⟨u1, hu1⟩ := (CMainParams_total E fuel r.2).1 ⟨hm, hroot⟩
    refine ⟨{ mainParams := m.1, testNetParams := t.1, regTestParams := r.1,
              unitTestParams := CUnitTestParams.body u1.1, pCurrentParams := none }, ?_⟩
    unfold staticInit CUnitTestParams
    rw [hmret]
    simp only [Run.bind]
    rw [htret]
    simp only [Run.bind]
    rw [hrret]
    simp only [Run.bind]
    rw [hu1]
  · intro hbad
    unfold staticInit
    by_cases hmain : E.GetHash (CMainParams.genesis E) = expectedGenesisHash .mainParams
        ∧ (CMainParams.genesis E).hashMerkleRoot = expectedMerkleRoot
    · obtain ⟨m, hmret⟩ := (CMainParams_total E fuel 0).1 hmain
      rw [hmret]
      simp only [Run.bind]
      by_cases htest : E.GetHash (CTestNetParams.genesis E)
          = expectedGenesisHash .testNetParams
      · obtain ⟨t, htret⟩ := (CTestNetParams_total E fuel m.2).1 ⟨hmain.1, hmain.2, htest⟩
        rw [htret]
        simp only [Run.bind]
        rw [(CRegTestParams_total E fuel t.2).2 hbad]
      · rw [(CTestNetParams_total E fuel m.2).2 (fun hall => htest hall.2.2)]
    · rw [(CMainParams_total E fuel 0).2 hmain]
      rfl

/-- A returning call changes the unit-test object at most in the six
members that the setters assign. -/
theorem runCall_unitTest (E : Platform) (c : Call) (s s1 : Registry)
    (h : runCall E c s = .ret s1) :
    ∃ a b c d e f, s1.unitTestParams = s.unitTestParams.withSetterFields a b c d e f := by
  have hsame : ∀ p : CChainParams, ∃ a b c d e f, p = p.withSetterFields a b c d e f :=
    fun p => ⟨_, _, _, _, _, _, rfl⟩
  cases c with
  | ModifiableParams =>
    obtain ⟨_, _, h2⟩ := Run.bind_eq_ret _ _ _ h
    simp only [Run.ret.injEq] at h2
    subst h2
    exact hsame _
  | ParamsSelected =>
    simp only [runCall, Run.ret.injEq] at h
    subst h
    exact hsame _
  | Params =>
    obtain ⟨_, _, h2⟩ := Run.bind_eq_ret _ _ _ h
    simp only [Run.ret.injEq] at h2
    subst h2
    exact hsame _
  | ParamsFor network =>
    obtain ⟨_, _, h2⟩ := Run.bind_eq_ret _ _ _ h
    simp only [Run.ret.injEq] at h2
    subst h2
    exact hsame _
  | SelectParams network =>
    obtain ⟨p, _, h2⟩ := SelectParams_ret E network s s1 h
    subst h2
    exact hsame _
  | SelectParamsFromCommandLine network =>
    obtain ⟨r, hr, h2⟩ := Run.bind_eq_ret _ _ _ h
    simp only [Run.ret.injEq] at h2
    subst h2
    unfold SelectParamsFromCommandLine at hr
    split at hr
    · simp only [Run.ret.injEq] at hr
      subst hr
      exact hsame _
    · obtain ⟨s2, hs2, h3⟩ := Run.bind_eq_ret _ _ _ hr
      simp only [Run.ret.injEq] at h3
      subst h3
      obtain ⟨p, _, h4⟩ := SelectParams_ret E network s s2 hs2
      subst h4
      exact hsame _
  | GetBlockChainSize =>
    simp only [runCall, Run.ret.injEq] at h
    subst h
    exact hsame _
  | VerifyGenesisBlock fopen datadir genesisHash =>
    obtain ⟨_, _, h2⟩ := Run.bind_eq_ret _ _ _ h
    simp only [Run.ret.injEq] at h2
    subst h2
    exact hsame _
  | setEnforceBlockUpgradeMajority v =>
    simp only [runCall, Run.ret.injEq] at h
    subst h
    exact ⟨_, _, _, _, _, _, rfl⟩
  | setRejectBlockOutdatedMajority v =>
    simp only [runCall, Run.ret.injEq] at h
    subst h
    exact ⟨_, _, _, _, _, _, rfl⟩
  | setToCheckBlockUpgradeMajority v =>
    simp only [runCall, Run.ret.injEq] at h
    subst h
    exact ⟨_, _, _, _, _, _, rfl⟩
  | setDefaultConsistencyChecks v =>
    simp only [runCall, Run.ret.injEq] at h
    subst h
    exact ⟨_, _, _, _, _, _, rfl⟩
  | setAllowMinDifficultyBlocks v =>
    simp only [runCall, Run.ret.injEq] at h
    subst h
    exact ⟨_, _, _, _, _, _, rfl⟩
  | setSkipProofOfWorkCheck v =>
    simp only [runCall, Run.ret.injEq] at h
    subst h
    exact ⟨_, _, _, _, _, _, rfl⟩

/-- In every reachable state the main, test-network and regression-test
objects are as static initialisation left them, and the unit-test object
differs at most in the six members that the setters assign. -/
theorem Reachable.frame (E : Platform) (s0 s : Registry) (hreach : Reachable E s0 s) :
    s.mainParams = s0.mainParams ∧ s.testNetParams = s0.testNetParams
    ∧ s.regTestParams = s0.regTestParams
    ∧ ∃ a b c d e f, s.unitTestParams = s0.unitTestParams.withSetterFields a b c d e f := by
  induction hreach with
  | init => exact ⟨rfl, rfl, rfl, _, _, _, _, _, _, rfl⟩
  | step c _ hrun ih =>
    obtain ⟨hm, ht, hr, _⟩ := runCall_frame E c _ _ hrun
    obtain ⟨a, b, c1, d, e, f, hu⟩ := runCall_unitTest E c _ _ hrun
    obtain ⟨im, it, ir, a0, b0, c0, d0, e0, f0, iu⟩ := ih
    refine ⟨hm.trans im, ht.trans it, hr.trans ir, a, b, c1, d, e, f, ?_⟩
    rw [hu, iu]
    rfl

/-- The genesis data of the four objects in a reachable state: each holds
the genesis block its constructor built, the asserted hash constant, which
is the hash of that block, the expected Merkle root, and the proof-of-work
limit. -/
theorem Reachable.genesis (E : Platform) (fuel : Nat) (s0 s : Registry)
    (hinit : staticInit E fuel = .ret s0) (hreach : Reachable E s0 s) :
    (s.mainParams.genesis = CMainParams.genesis E
      ∧ s.testNetParams.genesis = CTestNetParams.genesis E
      ∧ s.regTestParams.genesis = CRegTestParams.genesis E
      ∧ s.unitTestParams.genesis = CMainParams.genesis E)
    ∧ (∀ p, (s.obj p).hashGenesisBlock = expectedGenesisHash p
        ∧ E.GetHash (s.obj p).genesis = expectedGenesisHash p
        ∧ (s.obj p).genesis.hashMerkleRoot = expectedMerkleRoot
        ∧ (s.obj p).bnProofOfWorkLimit = (2 ^ 256 - 1) / 2) := by
  obtain ⟨m, t, r, u, k1, k2, k3, hm, ht, hr, hu, hs0⟩ := staticInit_parts E fuel s0 hinit
  obtain ⟨fm, ft, fr, a, b, c, d, e, f, fu⟩ := Reachable.frame E s0 s hreach
  obtain ⟨mg, mh, mhash, mroot, ml⟩ := CMainParams_genesis E fuel 0 m hm
  obtain ⟨tg, th, thash, troot, tl⟩ := CTestNetParams_genesis E fuel k1 t ht
  obtain ⟨rg, rh, rhash, rroot, rl⟩ := CRegTestParams_genesis E fuel k2 r hr
  obtain ⟨ug, uh, ul⟩ := CUnitTestParams_genesis E fuel k3 u hu
  subst hs0
  simp only at fm ft fr fu
  have hug : s.unitTestParams.genesis = CMainParams.genesis E := by rw [fu]; exact ug
  have huh : s.unitTestParams.hashGenesisBlock = expectedGenesisHash .unitTestParams := by
    rw [fu]; exact uh
  have hul : s.unitTestParams.bnProofOfWorkLimit = (2 ^ 256 - 1) / 2 := by rw [fu]; exact ul
  refine ⟨⟨by rw [fm]; exact mg, by rw [ft]; exact tg, by rw [fr]; exact rg, hug⟩, ?_⟩
  intro p
  cases p with
  | mainParams =>
    simp only [Registry.obj]
    rw [fm, mg]
    exact ⟨mh, mhash, mroot, ml⟩
  | testNetParams =>
    simp only [Registry.obj]
    rw [ft, tg]
    exact ⟨th, thash, troot, tl⟩
  | regTestParams =>
    simp only [Registry.obj]
    rw [fr, rg]
    exact ⟨rh, rhash, rroot, rl⟩
  | unitTestParams =>
    simp only [Registry.obj]
    rw [hug]
    exact ⟨huh, mhash, mroot, hul⟩

/-! ## Setter access, genesis constants, checkpoints, repeated selection: the claims -/

/-- C11: in every state the program can be in, `ModifiableParams()` returns,
and then returns the unit-test object, exactly when the current pointer is
that object, which is exactly when the active network is UnitTest; with no
network selected, or with an active network other than UnitTest (Main, Test
or RegTest), it fails an assertion, and so does a setter call made through
it. -/
theorem ModifiableParams_iff_unitTest (E : Platform) (fuel : Nat) (s0 s : Registry)
    (hinit : staticInit E fuel = .ret s0) (hreach : Reachable E s0 s) :
    ((∃ p, ModifiableParams s = .ret p) ↔ ModifiableParams s = .ret .unitTestParams)
    ∧ (ModifiableParams s = .ret .unitTestParams ↔ Params s = .ret .unitTestParams)
    ∧ (ModifiableParams s = .ret .unitTestParams
        ↔ ∃ cur, Params s = .ret cur ∧ (s.obj cur).networkID = .UNITTEST)
    ∧ (ParamsSelected s = false → ModifiableParams s = .assertFailed)
    ∧ (∀ cur, Params s = .ret cur → (s.obj cur).networkID ≠ .UNITTEST →
        ModifiableParams s = .assertFailed)
    ∧ (∀ setter : Registry → Registry,
        (Params s = .ret .unitTestParams → ModifiableParams.call setter s = .ret (setter s))
        ∧ (Params s ≠ .ret .unitTestParams →
            ModifiableParams.call setter s = .assertFailed)) := by
  obtain ⟨hm, ht, hr, hu⟩ := Reachable.identityFixed E fuel s0 s hinit hreach
  cases hcur : s.pCurrentParams with
  | none =>
    simp [ModifiableParams.call, ModifiableParams, Params, ParamsSelected, hcur, Run.bind]
  | some cur =>
    cases cur with
    | mainParams =>
      simp [ModifiableParams.call, ModifiableParams, Params, ParamsSelected, hcur,
        Registry.obj, hm.1, Run.bind]
    | testNetParams =>
      simp [ModifiableParams.call, ModifiableParams, Params, ParamsSelected, hcur,
        Registry.obj, ht.1, Run.bind]
    | regTestParams =>
      simp [ModifiableParams.call, ModifiableParams, Params, ParamsSelected, hcur,
        Registry.obj, hr.1, Run.bind]
    | unitTestParams =>
      simp [ModifiableParams.call, ModifiableParams, Params, ParamsSelected, hcur,
        Registry.obj, hu.1, Run.bind]

/-- Witness of C11: on the sample platform `ModifiableParams()` fails its
assertion with RegTest selected and returns the unit-test object with
UnitTest selected. -/
theorem ModifiableParams_iff_unitTest_witness :
    ModifiableParams sampleSelected = .assertFailed
    ∧ ModifiableParams sampleUnitTestSelected = .ret .unitTestParams :=
  ⟨(ModifiableParams_iff_unitTest samplePlatform 0 sampleRegistry sampleSelected (by rfl)
      (Reachable.step (.SelectParams .REGTEST) Reachable.init (by rfl))).2.2.2.2.1
      .regTestParams (by rfl) (by decide),
   (ModifiableParams_iff_unitTest samplePlatform 0 sampleRegistry sampleUnitTestSelected
      (by rfl) (Reachable.step (.SelectParams .UNITTEST) Reachable.init (by rfl))).2.1.2
      (by rfl)⟩

/-- C12: when the assertions of the constructors hold, static
initialisation returns, and in every state the program can then be in each
of the four objects stores as genesis hash the hash recomputed from its
genesis block, which is the hard-coded constant of its network (Main and
UnitTest 30ef..b741, Test 554e..266d, RegTest 6a7f..a765), and its genesis
Merkle root is bfe8..c3eb; when an assertion does not hold, construction
aborts on it. -/
theorem genesis_hash_constants (E : Platform) (fuel : Nat) :
    (GenesisAssertionsHold E →
      ∃ s0, staticInit E fuel = .ret s0 ∧ ∀ s, Reachable E s0 s → ∀ p : Instance,
        (s.obj p).hashGenesisBlock = E.GetHash (s.obj p).genesis
        ∧ (s.obj p).hashGenesisBlock = expectedGenesisHash p
        ∧ (s.obj p).genesis.hashMerkleRoot = expectedMerkleRoot)
    ∧ (¬ GenesisAssertionsHold E → staticInit E fuel = .assertFailed)
    ∧ (expectedGenesisHash .mainParams
          = 0x30ef80527cafd9e8685412f85e30efc2ffbfa15398c2852fe5ba0ace7f6cb741
        ∧ expectedGenesisHash .unitTestParams
          = 0x30ef80527cafd9e8685412f85e30efc2ffbfa15398c2852fe5ba0ace7f6cb741
        ∧ expectedGenesisHash .testNetParams
          = 0x554ec25d2f508143b7b137727a0f04052c405b01a1e3a2a42eebf943c316266d
        ∧ expectedGenesisHash .regTestParams
          = 0x6a7fd108b4ef0aab9ce43734d66a04dc83ac4c49a5b3a3e23387dbfcdcaca765
        ∧ expectedMerkleRoot
          = 0xbfe8624eaa27b3eb3f6258bca5f866147660de77582088229d865399c9d4c3eb) := by
  refine ⟨?_, (staticInit_total E fuel).2, rfl, rfl, rfl, rfl, rfl⟩
  intro hok
  obtain ⟨s0, hinit⟩ := (staticInit_total E fuel).1 hok
  refine ⟨s0, hinit, ?_⟩
  intro s hreach p
  obtain ⟨hh, hhash, hroot, _⟩ := (Reachable.genesis E fuel s0 s hinit hreach).2 p
  exact ⟨hh.trans hhash.symm, hh, hroot⟩

/-- Witness of C12: the assertions hold on the sample platform, and the
state its static initialisation returns stores the regression-test constant
in the regression-test object. -/
theorem genesis_hash_constants_witness :
    GenesisAssertionsHold samplePlatform
    ∧ ∃ s0, staticInit samplePlatform 0 = .ret s0 ∧ ∀ s, Reachable samplePlatform s0 s →
        ∀ p : Instance,
          (s.obj p).hashGenesisBlock = samplePlatform.GetHash (s.obj p).genesis
          ∧ (s.obj p).hashGenesisBlock = expectedGenesisHash p
          ∧ (s.obj p).genesis.hashMerkleRoot = expectedMerkleRoot :=
  ⟨⟨by rfl, by rfl, by rfl, by rfl⟩,
   (genesis_hash_constants samplePlatform 0).1 ⟨by rfl, by rfl, by rfl, by rfl⟩⟩

/-- C13: for each of the four objects the checkpoint table that
`Checkpoints()` returns lists strictly increasing heights and starts with
height 0 mapped to the hard-coded genesis hash of the network; the unit-test
object returns the main table with the main genesis hash; and in every state
the program can be in, the hash at height 0 is the genesis hash the object
stores. -/
theorem Checkpoints_increasing_from_genesis (p : Instance) :
    ((Checkpoints p).mapCheckpoints.map Prod.fst).Pairwise (· < ·)
    ∧ (Checkpoints p).mapCheckpoints.head? = some (0, expectedGenesisHash p)
    ∧ (0, expectedGenesisHash p) ∈ (Checkpoints p).mapCheckpoints
    ∧ (∀ h, (0, h) ∈ (Checkpoints p).mapCheckpoints → h = expectedGenesisHash p)
    ∧ Checkpoints .unitTestParams = data
    ∧ expectedGenesisHash .unitTestParams = expectedGenesisHash .mainParams
    ∧ (∀ (E : Platform) (fuel : Nat) (s0 s : Registry), staticInit E fuel = .ret s0 →
        Reachable E s0 s →
        (0, (s.obj p).hashGenesisBlock) ∈ (Checkpoints p).mapCheckpoints) := by
  have h1 : ((Checkpoints p).mapCheckpoints.map Prod.fst).Pairwise (· < ·) := by
    cases p <;> decide
  have h2 : (Checkpoints p).mapCheckpoints.head? = some (0, expectedGenesisHash p) := by
    cases p <;> rfl
  have h3 : (0, expectedGenesisHash p) ∈ (Checkpoints p).mapCheckpoints := by
    cases p <;> simp [Checkpoints, data, dataTestnet, dataRegtest, mapCheckpoints,
      mapCheckpointsTestnet, mapCheckpointsRegtest, expectedGenesisHash]
  have h4 : ∀ h, (0, h) ∈ (Checkpoints p).mapCheckpoints → h = expectedGenesisHash p := by
    intro h hmem
    cases p <;> simp [Checkpoints, data, dataTestnet, dataRegtest, mapCheckpoints,
      mapCheckpointsTestnet, mapCheckpointsRegtest] at hmem <;> exact hmem
  refine ⟨h1, h2, h3, h4, rfl, rfl, ?_⟩
  intro E fuel s0 s hinit hreach
  rw [((Reachable.genesis E fuel s0 s hinit hreach).2 p).1]
  exact h3

/-- Witness of C13: on the sample platform the regression-test object's
stored genesis hash is the entry at height 0 of its checkpoint table. -/
theorem Checkpoints_increasing_from_genesis_witness :
    (0, (sampleSelected.obj .regTestParams).hashGenesisBlock)
      ∈ (Checkpoints .regTestParams).mapCheckpoints :=
  (Checkpoints_increasing_from_genesis .regTestParams).2.2.2.2.2.2 samplePlatform 0
    sampleRegistry sampleSelected (by rfl)
    (Reachable.step (.SelectParams .REGTEST) Reachable.init (by rfl))

/-- A returning sequence of `SelectParams` calls leaves the state it found
with the pointer at the object that `Params(id)` returns for the last
identifier. -/
theorem selectAll_last (E : Platform) :
    ∀ (networks : List Network) (last : Network) (s s1 : Registry),
      selectAll E (networks ++ [last]) s = .ret s1 →
      ∃ p, ParamsFor last = .ret p ∧ s1 = { s with pCurrentParams := some p } := by
  intro networks
  induction networks with
  | nil =>
    intro last s s1 h
    simp only [List.nil_append, selectAll] at h
    obtain ⟨s2, hs2, h2⟩ := Run.bind_eq_ret _ _ _ h
    simp only [Run.ret.injEq] at h2
    subst h2
    exact SelectParams_ret E last s s2 hs2
  | cons first rest ih =>
    intro last s s1 h
    simp only [List.cons_append, selectAll] at h
    obtain ⟨s2, hs2, h2⟩ := Run.bind_eq_ret _ _ _ h
    obtain ⟨q, _, hs⟩ := SelectParams_ret E first s s2 hs2
    obtain ⟨p, hp, hrest⟩ := ih last s2 s1 h2
    exact ⟨p, hp, by rw [hrest, hs]⟩

/-- C14: `SelectParams(id)` run twice in a row ends as `SelectParams(id)`
run once, in the same state when it returns. After any sequence of
`SelectParams` calls that return, the active object is the one of the last
identifier: `mainParams` for MAIN, `testNetParams` for TESTNET,
`regTestParams` for REGTEST, `unitTestParams` for UNITTEST, which is what
`Params(id)` returns for it; the four objects are untouched; and when the
sequence starts in a state the program can be in, the `networkID` of the
active object is the identifier of the last call. A sequence of valid
identifiers whose base selections return does return. -/
theorem SelectParams_idempotent_last_wins (E : Platform) (s : Registry) :
    (∀ network, (SelectParams E network s).bind (SelectParams E network)
        = SelectParams E network s)
    ∧ (∀ (networks : List Network) (last : Network) (s1 : Registry),
        selectAll E (networks ++ [last]) s = .ret s1 →
        Params s1 = ParamsFor last ∧ s1 = { s with pCurrentParams := s1.pCurrentParams }
        ∧ last ≠ .MAX_NETWORK_TYPES
        ∧ (last = .MAIN → Params s1 = .ret .mainParams)
        ∧ (last = .TESTNET → Params s1 = .ret .testNetParams)
        ∧ (last = .REGTEST → Params s1 = .ret .regTestParams)
        ∧ (last = .UNITTEST → Params s1 = .ret .unitTestParams)
        ∧ (∀ fuel s0, staticInit E fuel = .ret s0 → Reachable E s0 s →
            ∃ cur, Params s1 = .ret cur ∧ (s1.obj cur).networkID = last))
    ∧ (∀ networks : List Network,
        (∀ network ∈ networks,
          network ≠ .MAX_NETWORK_TYPES ∧ E.SelectBaseParams network = true) →
        ∃ s1, selectAll E networks s = .ret s1) := by
  refine ⟨?_, ?_, ?_⟩
  · intro network
    by_cases hbase : E.SelectBaseParams network = true
    · cases network <;> simp [SelectParams, hbase, ParamsFor, Run.bind]
    · simp [SelectParams, hbase, Run.bind]
  · intro networks last s1 h
    obtain ⟨p, hp, hs1⟩ := selectAll_last E networks last s s1 h
    subst hs1
    have hid : ∀ fuel s0, staticInit E fuel = .ret s0 → Reachable E s0 s →
        s.IdentityFixed := fun fuel s0 hinit hreach =>
      Reachable.identityFixed E fuel s0 s hinit hreach
    cases last with
    | MAX_NETWORK_TYPES => simp [ParamsFor] at hp
    | MAIN =>
      simp only [ParamsFor, Run.ret.injEq] at hp
      subst hp
      refine ⟨rfl, rfl, by decide, fun _ => rfl, (fun h => absurd h (by decide)), (fun h => absurd h (by decide)),
        (fun h => absurd h (by decide)), ?_⟩
      intro fuel s0 hinit hreach
      exact ⟨.mainParams, rfl, (hid fuel s0 hinit hreach).1.1⟩
    | TESTNET =>
      simp only [ParamsFor, Run.ret.injEq] at hp
      subst hp
      refine ⟨rfl, rfl, by decide, (fun h => absurd h (by decide)), fun _ => rfl, (fun h => absurd h (by decide)),
        (fun h => absurd h (by decide)), ?_⟩
      intro fuel s0 hinit hreach
      exact ⟨.testNetParams, rfl, (hid fuel s0 hinit hreach).2.1.1⟩
    | REGTEST =>
      simp only [ParamsFor, Run.ret.injEq] at hp
      subst hp
      refine ⟨rfl, rfl, by decide, (fun h => absurd h (by decide)), (fun h => absurd h (by decide)), fun _ => rfl,
        (fun h => absurd h (by decide)), ?_⟩
      intro fuel s0 hinit hreach
      exact ⟨.regTestParams, rfl, (hid fuel s0 hinit hreach).2.2.1.1⟩
    | UNITTEST =>
      simp only [ParamsFor, Run.ret.injEq] at hp
      subst hp
      refine ⟨rfl, rfl, by decide, (fun h => absurd h (by decide)), (fun h => absurd h (by decide)),
        (fun h => absurd h (by decide)), fun _ => rfl, ?_⟩
      intro fuel s0 hinit hreach
      exact ⟨.unitTestParams, rfl, (hid fuel s0 hinit hreach).2.2.2.1⟩
  · intro networks
    induction networks generalizing s with
    | nil => intro _; exact ⟨s, rfl⟩
    | cons first rest ih =>
      intro hall
      obtain ⟨hvalid, hbase⟩ := hall first (List.mem_cons_self _ _)
      obtain ⟨p, _, hsel⟩ := SelectParams_valid E first s hvalid hbase
      obtain ⟨s1, hs1⟩ := ih { s with pCurrentParams := some p }
        (fun network hmem => hall network (List.mem_cons_of_mem _ hmem))
      exact ⟨s1, by simp only [selectAll, hsel, Run.bind]; exact hs1⟩

/-- Witness of C14: on the sample platform, selecting Main, then UnitTest,
then RegTest returns, and the active object is then `regTestParams`, whose
`networkID` is REGTEST and whose default port is 32205. -/
theorem SelectParams_idempotent_last_wins_witness :
    selectAll samplePlatform [.MAIN, .UNITTEST, .REGTEST] sampleRegistry = .ret sampleSelected
    ∧ Params sampleSelected = .ret .regTestParams
    ∧ (∃ cur, Params sampleSelected = .ret cur
        ∧ (sampleSelected.obj cur).networkID = .REGTEST)
    ∧ (sampleSelected.obj .regTestParams).nDefaultPort = 32205 :=
  ⟨by rfl,
   ((SelectParams_idempotent_last_wins samplePlatform sampleRegistry).2.1
      [.MAIN, .UNITTEST] .REGTEST sampleSelected (by rfl)).2.2.2.2.2.1 rfl,
   ((SelectParams_idempotent_last_wins samplePlatform sampleRegistry).2.1
      [.MAIN, .UNITTEST] .REGTEST sampleSelected (by rfl)).2.2.2.2.2.2.2 0 sampleRegistry
      (by rfl) Reachable.init,
   by rfl⟩

/-! ## Variants as overrides: lemmas and the claim -/

/-- A unit-test object is a main object, constructed at any point, with the
members changed that the unit-test constructor's body changes. -/
theorem CUnitTestParams_from_main (E : Platform) (fuel k fuel1 k1 : Nat)
    (m u : CChainParams × Nat)
    (hm : CMainParams E fuel k = .ret m) (hu : CUnitTestParams E fuel1 k1 = .ret u) :
    u.1 = { m.1 with
            networkID := .UNITTEST
            strNetworkID := "unittest"
            nDefaultPort := 32207
            vFixedSeeds := []
            vSeeds := []
            fMiningRequiresPeers := false
            fDefaultConsistencyChecks := true
            fMineBlocksOnDemand := true } := by
  unfold CUnitTestParams at hu
  obtain ⟨m1, hm1, h2⟩ := Run.bind_eq_ret _ _ _ hu
  have hagree := CMainParams_agree E fuel k fuel1 k1 m m1 hm hm1
  have hfalse : m.1.fAllowMinDifficultyBlocks = false := by
    unfold CMainParams at hm
    obtain ⟨gh, _, h3⟩ := Run.bind_eq_ret _ _ _ hm
    simp only [Run.ret.injEq] at h3
    subst h3
    rfl
  simp only [Run.ret.injEq] at h2
  subst h2
  obtain ⟨mp, mk⟩ := m
  obtain ⟨mp1, mk1⟩ := m1
  simp only at hagree hfalse ⊢
  generalize mp.vFixedSeeds = seeds at hagree
  subst hagree
  simp only at hfalse
  simp only [CUnitTestParams.body, hfalse]

/-- A test-network object agrees with a main object, constructed at any
point, on every member that the test-network constructor's body does not
assign. -/
theorem CTestNetParams_from_main (E : Platform) (fuel k fuel1 k1 : Nat)
    (m t : CChainParams × Nat)
    (hm : CMainParams E fuel k = .ret m) (ht : CTestNetParams E fuel1 k1 = .ret t) :
    t.1 = m.1.withTestNetAssigned t.1 := by
  unfold CTestNetParams at ht
  obtain ⟨m1, hm1, hbody⟩ := Run.bind_eq_ret _ _ _ ht
  have hagree := CMainParams_agree E fuel k fuel1 k1 m m1 hm hm1
  unfold CTestNetParams.body at hbody
  obtain ⟨gh, hgh, h2⟩ := Run.bind_eq_ret _ _ _ hbody
  obtain ⟨hg, _, _⟩ := genesisBlockCheck_ret E fuel1 true _ _ gh hgh
  simp only [Run.ret.injEq] at h2
  subst h2
  subst hg
  obtain ⟨mp, mk⟩ := m
  obtain ⟨mp1, mk1⟩ := m1
  simp only at hagree ⊢
  generalize mp.vFixedSeeds = seeds at hagree
  subst hagree
  rfl

/-- A regression-test object agrees with a test-network object, constructed
at any point, on every member that the regression-test constructor's body
does not assign. -/
theorem CRegTestParams_from_testNet (E : Platform) (fuel k fuel1 k1 : Nat)
    (t r : CChainParams × Nat)
    (ht : CTestNetParams E fuel k = .ret t) (hr : CRegTestParams E fuel1 k1 = .ret r) :
    r.1 = t.1.withRegTestAssigned r.1 := by
  unfold CRegTestParams at hr
  obtain ⟨t1, ht1, hbody⟩ := Run.bind_eq_ret _ _ _ hr
  have hagree := CTestNetParams_agree E fuel k fuel1 k1 t t1 ht ht1
  unfold CRegTestParams.body at hbody
  obtain ⟨gh, hgh, h2⟩ := Run.bind_eq_ret _ _ _ hbody
  obtain ⟨hg, _, _⟩ := genesisBlockCheck_ret E fuel1 false _ _ gh hgh
  simp only [regenerate, Bool.false_eq_true, if_false, Run.ret.injEq] at h2
  subst h2
  subst hg
  obtain ⟨tp, tk⟩ := t
  obtain ⟨tp1, tk1⟩ := t1
  simp only at hagree ⊢
  generalize tp.vFixedSeeds = seeds at hagree
  subst hagree
  rfl

/-- C15: every variant is Main plus explicit overrides. As constructed, the
unit-test object equals the main object except for network id, name, default
port (32207), the two seed lists (empty), `fMiningRequiresPeers`,
`fDefaultConsistencyChecks` and `fMineBlocksOnDemand` (later only the
setters' six members can change in it). In every state the program can be
in, the test-network object equals the main object on every member its
constructor does not assign (among them the proof-of-work limit, the maximum
reorganization depth, `fSkipProofOfWorkCheck`, and version, `nBits` and
Merkle root of the genesis block), and the regression-test object equals the
test-network object on every member its constructor does not assign (among
them the base58 prefixes, `nMaxMoneyOut`, `nMasternodeCountDrift`,
`nModifierUpdateBlock`, `nBudgetFeeConfirmations` and the bootstrap URL). -/
theorem variants_are_main_plus_overrides (E : Platform) (fuel : Nat) (s0 s : Registry)
    (hinit : staticInit E fuel = .ret s0) (hreach : Reachable E s0 s) :
    s0.unitTestParams =
        { s0.mainParams with
          networkID := .UNITTEST
          strNetworkID := "unittest"
          nDefaultPort := 32207
          vFixedSeeds := []
          vSeeds := []
          fMiningRequiresPeers := false
          fDefaultConsistencyChecks := true
          fMineBlocksOnDemand := true }
    ∧ (∃ a b c d e f, s.unitTestParams =
        CChainParams.withSetterFields
          { s.mainParams with
            networkID := .UNITTEST
            strNetworkID := "unittest"
            nDefaultPort := 32207
            vFixedSeeds := []
            vSeeds := []
            fMiningRequiresPeers := false
            fDefaultConsistencyChecks := true
            fMineBlocksOnDemand := true } a b c d e f)
    ∧ s.testNetParams = s.mainParams.withTestNetAssigned s.testNetParams
    ∧ s.regTestParams = s.testNetParams.withRegTestAssigned s.regTestParams
    ∧ (s.testNetParams.bnProofOfWorkLimit = s.mainParams.bnProofOfWorkLimit
      ∧ s.testNetParams.nMaxReorganizationDepth = s.mainParams.nMaxReorganizationDepth
      ∧ s.testNetParams.fSkipProofOfWorkCheck = s.mainParams.fSkipProofOfWorkCheck
      ∧ s.testNetParams.genesis.nVersion = s.mainParams.genesis.nVersion
      ∧ s.testNetParams.genesis.nBits = s.mainParams.genesis.nBits
      ∧ s.testNetParams.genesis.hashMerkleRoot = s.mainParams.genesis.hashMerkleRoot)
    ∧ (s.regTestParams.base58Prefixes = s.testNetParams.base58Prefixes
      ∧ s.regTestParams.nMaxMoneyOut = s.testNetParams.nMaxMoneyOut
      ∧ s.regTestParams.nMasternodeCountDrift = s.testNetParams.nMasternodeCountDrift
      ∧ s.regTestParams.nModifierUpdateBlock = s.testNetParams.nModifierUpdateBlock
      ∧ s.regTestParams.nBudgetFeeConfirmations = s.testNetParams.nBudgetFeeConfirmations
      ∧ s.regTestParams.strBootstrapUrl = s.testNetParams.strBootstrapUrl) := by
  obtain ⟨m, t, r, u, k1, k2, k3, hm, ht, hr, hu, hs0⟩ := staticInit_parts E fuel s0 hinit
  obtain ⟨fm, ft, fr, a, b, c, d, e, f, fu⟩ := Reachable.frame E s0 s hreach
  have hunit := CUnitTestParams_from_main E fuel 0 fuel k3 m u hm hu
  have htest := CTestNetParams_from_main E fuel 0 fuel k1 m t hm ht
  have hreg := CRegTestParams_from_testNet E fuel k1 fuel k2 t r ht hr
  subst hs0
  simp only at fm ft fr fu ⊢
  rw [fm, ft, fr, fu]
  refine ⟨hunit, ⟨a, b, c, d, e, f, by rw [hunit]⟩, htest, hreg, ?_, ?_⟩
  · have h1 := congrArg CChainParams.bnProofOfWorkLimit htest
    have h2 := congrArg CChainParams.nMaxReorganizationDepth htest
    have h3 := congrArg CChainParams.fSkipProofOfWorkCheck htest
    have h4 := congrArg (fun p => p.genesis.nVersion) htest
    have h5 := congrArg (fun p => p.genesis.nBits) htest
    have h6 := congrArg (fun p => p.genesis.hashMerkleRoot) htest
    exact ⟨h1, h2, h3, h4, h5, h6⟩
  · have h1 := congrArg CChainParams.base58Prefixes hreg
    have h2 := congrArg CChainParams.nMaxMoneyOut hreg
    have h3 := congrArg CChainParams.nMasternodeCountDrift hreg
    have h4 := congrArg CChainParams.nModifierUpdateBlock hreg
    have h5 := congrArg CChainParams.nBudgetFeeConfirmations hreg
    have h6 := congrArg CChainParams.strBootstrapUrl hreg
    exact ⟨h1, h2, h3, h4, h5, h6⟩

/-- Witness of C15: on the sample platform, with RegTest selected, the
regression-test object has the test-network object's base58 prefixes and the
test-network object has the main object's proof-of-work limit. -/
theorem variants_are_main_plus_overrides_witness :
    sampleSelected.regTestParams.base58Prefixes = sampleSelected.testNetParams.base58Prefixes
    ∧ sampleSelected.testNetParams.bnProofOfWorkLimit
      = sampleSelected.mainParams.bnProofOfWorkLimit :=
  ⟨(variants_are_main_plus_overrides samplePlatform 0 sampleRegistry sampleSelected (by rfl)
      (Reachable.step (.SelectParams .REGTEST) Reachable.init (by rfl))).2.2.2.2.2.1,
   (variants_are_main_plus_overrides samplePlatform 0 sampleRegistry sampleSelected (by rfl)
      (Reachable.step (.SelectParams .REGTEST) Reachable.init (by rfl))).2.2.2.2.1.1⟩

/-! ## The discovery search: lemmas and the claims -/

/-- The loop at a block whose hash is not above the target: no pass is made. -/
theorem searchLoop_done (E : Platform) (hashTarget : uint256) (fuel : Nat) (genesis : CBlock)
    (h : E.GetHash genesis ≤ hashTarget) :
    searchLoop E hashTarget fuel genesis = some genesis := by
  unfold searchLoop
  simp [Nat.not_lt.mpr h]

/-- The loop at a block whose hash is above the target, with a pass left. -/
theorem searchLoop_pass (E : Platform) (hashTarget : uint256) (fuel : Nat) (genesis : CBlock)
    (h : E.GetHash genesis > hashTarget) :
    searchLoop E hashTarget (fuel + 1) genesis
      = searchLoop E hashTarget fuel (searchStep genesis) := by
  rw [searchLoop]
  simp [h]

/-- The loop at a block whose hash is above the target, with no pass left. -/
theorem searchLoop_out (E : Platform) (hashTarget : uint256) (genesis : CBlock)
    (h : E.GetHash genesis > hashTarget) :
    searchLoop E hashTarget 0 genesis = none := by
  rw [searchLoop]
  simp [h]

/-- The loop returns the first block, in the order of the passes, whose hash
is not above the target, when the budget reaches that far. -/
theorem searchLoop_first (E : Platform) (hashTarget : uint256) :
    ∀ (j fuel : Nat) (genesis : CBlock), j ≤ fuel →
      (∀ i < j, E.GetHash (searchStep^[i] genesis) > hashTarget) →
      E.GetHash (searchStep^[j] genesis) ≤ hashTarget →
      searchLoop E hashTarget fuel genesis = some (searchStep^[j] genesis) := by
  intro j
  induction j with
  | zero =>
    intro fuel genesis _ _ hj
    exact searchLoop_done E hashTarget fuel genesis hj
  | succ j ih =>
    intro fuel genesis hle hbefore hj
    obtain ⟨fuel1, rfl⟩ : ∃ fuel1, fuel = fuel1 + 1 := ⟨fuel - 1, by omega⟩
    have h0 : E.GetHash genesis > hashTarget := hbefore 0 (Nat.succ_pos j)
    rw [searchLoop_pass E hashTarget fuel1 genesis h0]
    have := ih fuel1 (searchStep genesis) (by omega)
      (fun i hi => by
        have := hbefore (i + 1) (by omega)
        rwa [Function.iterate_succ_apply] at this)
      (by rwa [Function.iterate_succ_apply] at hj)
    rw [this, Function.iterate_succ_apply]

/-- A block that the loop returns has a hash not above the target and is
the first such block in the order of the passes. -/
theorem searchLoop_sound (E : Platform) (hashTarget : uint256) :
    ∀ (fuel : Nat) (genesis found : CBlock),
      searchLoop E hashTarget fuel genesis = some found →
      E.GetHash found ≤ hashTarget
      ∧ ∃ j ≤ fuel, found = searchStep^[j] genesis
          ∧ ∀ i < j, E.GetHash (searchStep^[i] genesis) > hashTarget := by
  intro fuel
  induction fuel with
  | zero =>
    intro genesis found h
    by_cases h0 : E.GetHash genesis > hashTarget
    · rw [searchLoop_out E hashTarget genesis h0] at h
      simp at h
    · have hle : E.GetHash genesis ≤ hashTarget := Nat.not_lt.mp h0
      rw [searchLoop_done E hashTarget 0 genesis hle] at h
      simp only [Option.some.injEq] at h
      subst h
      exact ⟨hle, 0, le_refl 0, rfl, fun i hi => absurd hi (Nat.not_lt_zero i)⟩
  | succ fuel ih =>
    intro genesis found h
    by_cases h0 : E.GetHash genesis > hashTarget
    · rw [searchLoop_pass E hashTarget fuel genesis h0] at h
      obtain ⟨hfound, j, hj, hiter, hbefore⟩ := ih (searchStep genesis) found h
      refine ⟨hfound, j + 1, by omega, ?_, ?_⟩
      · rw [Function.iterate_succ_apply]
        exact hiter
      · intro i hi
        cases i with
        | zero => exact h0
        | succ i =>
          rw [Function.iterate_succ_apply]
          exact hbefore i (by omega)
    · have hle : E.GetHash genesis ≤ hashTarget := Nat.not_lt.mp h0
      rw [searchLoop_done E hashTarget (fuel + 1) genesis hle] at h
      simp only [Option.some.injEq] at h
      subst h
      exact ⟨hle, 0, Nat.zero_le _, rfl, fun i hi => absurd hi (Nat.not_lt_zero i)⟩

/-- A pass of the loop body in which the nonce wraps to 0. -/
theorem searchStep_wrap (genesis : CBlock) (h : (genesis.nNonce + 1) % 2 ^ 32 = 0) :
    searchStep genesis
      = { genesis with
          nNonce := (genesis.nNonce + 1) % 2 ^ 32, nTime := (genesis.nTime + 1) % 2 ^ 32 } := by
  show (if (genesis.nNonce + 1) % 2 ^ 32 = 0 then _ else _) = _
  rw [if_pos h]

/-- A pass of the loop body in which the nonce does not wrap. -/
theorem searchStep_plain (genesis : CBlock) (h : (genesis.nNonce + 1) % 2 ^ 32 ≠ 0) :
    searchStep genesis = { genesis with nNonce := (genesis.nNonce + 1) % 2 ^ 32 } := by
  show (if (genesis.nNonce + 1) % 2 ^ 32 = 0 then _ else _) = _
  rw [if_neg h]

/-- A pass of the loop body leaves `nBits` as it is. -/
theorem searchStep_nBits (genesis : CBlock) : (searchStep genesis).nBits = genesis.nBits := by
  by_cases h : (genesis.nNonce + 1) % 2 ^ 32 = 0
  · rw [searchStep_wrap genesis h]
  · rw [searchStep_plain genesis h]

/-- Any number of passes leaves `nBits` as it is. -/
theorem searchStep_iterate_nBits (j : Nat) (genesis : CBlock) :
    (searchStep^[j] genesis).nBits = genesis.nBits := by
  induction j generalizing genesis with
  | zero => rfl
  | succ j ih => rw [Function.iterate_succ_apply, ih, searchStep_nBits]

/-- C16: in the discovery search each pass increments the 32-bit nonce
modulo 2^32, increments the 32-bit timestamp by one exactly when the nonce
has wrapped to 0 (the increment is the machine one: short of 2^32 - 1 the
timestamp becomes `nTime + 1`), and changes no other field of the block. The
loop returns the first block, in the order of the passes, whose hash read as
a number is at most the target, provided the budget of passes reaches it; a
block it returns satisfies hash <= target and is that first block; a block
that already satisfies hash <= target is returned unchanged; and in the
constructors' regenerate branch the target is the one decoded from `nBits`,
so a returning branch leaves a genesis block with hash <= that target. -/
theorem searchLoop_discovery (E : Platform) (hashTarget : uint256) (genesis : CBlock) :
    ((searchStep genesis).nNonce = (genesis.nNonce + 1) % 2 ^ 32
      ∧ ((genesis.nNonce + 1) % 2 ^ 32 = 0 →
          (searchStep genesis).nTime = (genesis.nTime + 1) % 2 ^ 32)
      ∧ ((genesis.nNonce + 1) % 2 ^ 32 = 0 → genesis.nTime + 1 < 2 ^ 32 →
          (searchStep genesis).nTime = genesis.nTime + 1)
      ∧ ((genesis.nNonce + 1) % 2 ^ 32 ≠ 0 → (searchStep genesis).nTime = genesis.nTime)
      ∧ { searchStep genesis with nNonce := genesis.nNonce, nTime := genesis.nTime }
          = genesis)
    ∧ (∀ j fuel : Nat, j ≤ fuel →
        (∀ i < j, E.GetHash (searchStep^[i] genesis) > hashTarget) →
        E.GetHash (searchStep^[j] genesis) ≤ hashTarget →
        searchLoop E hashTarget fuel genesis = some (searchStep^[j] genesis))
    ∧ (∀ (fuel : Nat) (found : CBlock), searchLoop E hashTarget fuel genesis = some found →
        E.GetHash found ≤ hashTarget
        ∧ ∃ j ≤ fuel, found = searchStep^[j] genesis
            ∧ ∀ i < j, E.GetHash (searchStep^[i] genesis) > hashTarget)
    ∧ (E.GetHash genesis ≤ hashTarget →
        ∀ fuel, searchLoop E hashTarget fuel genesis = some genesis)
    ∧ (∀ (fuel : Nat) (resetNonce : Bool) (expected : uint256) (gh : CBlock × uint256),
        genesisBlockCheck E true fuel resetNonce expected genesis = .ret gh →
        E.GetHash gh.1 ≤ SetCompact gh.1.nBits ∧ gh.1.nBits = genesis.nBits) := by
  refine ⟨⟨?_, ?_, ?_, ?_, ?_⟩, ?_, ?_, ?_, ?_⟩
  · by_cases h : (genesis.nNonce + 1) % 2 ^ 32 = 0
    · rw [searchStep_wrap genesis h]
    · rw [searchStep_plain genesis h]
  · intro hw
    rw [searchStep_wrap genesis hw]
  · intro hw hlt
    rw [searchStep_wrap genesis hw]
    exact Nat.mod_eq_of_lt hlt
  · intro hw
    rw [searchStep_plain genesis hw]
  · by_cases h : (genesis.nNonce + 1) % 2 ^ 32 = 0
    · rw [searchStep_wrap genesis h]
    · rw [searchStep_plain genesis h]
  · intro j fuel
    exact searchLoop_first E hashTarget j fuel genesis
  · intro fuel found
    exact searchLoop_sound E hashTarget fuel genesis found
  · intro h fuel
    exact searchLoop_done E hashTarget fuel genesis h
  · intro fuel resetNonce expected gh h
    have key : ∀ g0 : CBlock, g0.nBits = genesis.nBits →
        (if E.GetHash g0 ≠ 0 then
            (match searchLoop E (SetCompact g0.nBits) fuel g0 with
              | none => (Run.diverged : Run (CBlock × uint256))
              | some found => .ret (found, 0))
          else .ret (g0, 0)) = .ret gh →
        E.GetHash gh.1 ≤ SetCompact gh.1.nBits ∧ gh.1.nBits = genesis.nBits := by
      intro g0 hbits hrun
      by_cases hz : E.GetHash g0 = 0
      · simp only [hz, ne_eq, not_true_eq_false, if_false, Run.ret.injEq] at hrun
        subst hrun
        exact ⟨by simp only [hz]; exact Nat.zero_le _, hbits⟩
      · simp only [ne_eq, hz, not_false_eq_true, if_true] at hrun
        cases hs : searchLoop E (SetCompact g0.nBits) fuel g0 with
        | none => simp [hs] at hrun
        | some found =>
          simp only [hs, Run.ret.injEq] at hrun
          subst hrun
          obtain ⟨hle, j, _, hiter, _⟩ := searchLoop_sound E _ fuel g0 found hs
          have hb : found.nBits = g0.nBits := by
            rw [hiter]
            exact searchStep_iterate_nBits j g0
          exact ⟨by simp only [hb]; exact hle, hb.trans hbits⟩
    cases resetNonce with
    | true => exact key { genesis with nNonce := 0 } rfl h
    | false => exact key genesis rfl h

/-- Witness of C16: on the sample platform, from a block with nonce
2^32 - 1 and timestamp 0 and with target 1000, the loop makes one pass and
returns the block with nonce 0 and timestamp 1. -/
theorem searchLoop_discovery_witness :
    searchLoop samplePlatform 1000 5 sampleSearchStart
      = some { sampleSearchStart with nNonce := 0, nTime := 1 } :=
  (searchLoop_discovery samplePlatform 1000 sampleSearchStart).2.1 1 5 (by decide)
    (by decide) (by decide)

/-! ## Seeds, the regenerate flag, the compact target, the length prefix: the claims -/

/-- The main constructor does not depend on the budget of search passes. -/
theorem CMainParams_fuel (E : Platform) (fuel fuel1 k : Nat) :
    CMainParams E fuel k = CMainParams E fuel1 k := by
  simp only [CMainParams, genesisBlockCheck_normal]

/-- The test-network constructor does not depend on the budget of search
passes. -/
theorem CTestNetParams_fuel (E : Platform) (fuel fuel1 k : Nat) :
    CTestNetParams E fuel k = CTestNetParams E fuel1 k := by
  simp only [CTestNetParams, CTestNetParams.body, genesisBlockCheck_normal,
    CMainParams_fuel E fuel fuel1]

/-- The regression-test constructor does not depend on the budget of search
passes. -/
theorem CRegTestParams_fuel (E : Platform) (fuel fuel1 k : Nat) :
    CRegTestParams E fuel k = CRegTestParams E fuel1 k := by
  simp only [CRegTestParams, CRegTestParams.body, genesisBlockCheck_normal,
    CTestNetParams_fuel E fuel fuel1]

/-- The unit-test constructor does not depend on the budget of search
passes. -/
theorem CUnitTestParams_fuel (E : Platform) (fuel fuel1 k : Nat) :
    CUnitTestParams E fuel k = CUnitTestParams E fuel1 k := by
  simp only [CUnitTestParams, CMainParams_fuel E fuel fuel1]

/-- C18: the discovery search is not reached in construction. The flag
`regenerate` is false, so the genesis check of each constructor is its
assertion branch, in which the loop does not occur; static initialisation
gives the same result whatever the budget of search passes, and it never
ends with the loop still running or through `exit`. In every state the
program can be in, the genesis nonce and timestamp hold their constants:
Main and UnitTest 0 and 1584227334, Test 0 and 1581171337, RegTest 1 and
1581171338. -/
theorem regenerate_off_search_unreached (E : Platform) (fuel : Nat) :
    regenerate = false
    ∧ (∀ (resetNonce : Bool) (expected : uint256) (genesis : CBlock),
        genesisBlockCheck E regenerate fuel resetNonce expected genesis =
          if E.GetHash genesis ≠ expected then .assertFailed
          else if genesis.hashMerkleRoot ≠ expectedMerkleRoot then .assertFailed
          else .ret (genesis, E.GetHash genesis))
    ∧ (∀ fuel1, staticInit E fuel = staticInit E fuel1)
    ∧ staticInit E fuel ≠ .diverged
    ∧ staticInit E fuel ≠ .exited
    ∧ (∀ s0 s, staticInit E fuel = .ret s0 → Reachable E s0 s →
        (s.mainParams.genesis.nNonce = 0 ∧ s.mainParams.genesis.nTime = 1584227334)
        ∧ (s.unitTestParams.genesis.nNonce = 0 ∧ s.unitTestParams.genesis.nTime = 1584227334)
        ∧ (s.testNetParams.genesis.nNonce = 0 ∧ s.testNetParams.genesis.nTime = 1581171337)
        ∧ (s.regTestParams.genesis.nNonce = 1
            ∧ s.regTestParams.genesis.nTime = 1581171338)) := by
  refine ⟨rfl, genesisBlockCheck_normal E fuel, ?_, ?_, ?_, ?_⟩
  · intro fuel1
    unfold staticInit
    simp only [CMainParams_fuel E fuel fuel1, CTestNetParams_fuel E fuel fuel1,
      CRegTestParams_fuel E fuel fuel1, CUnitTestParams_fuel E fuel fuel1]
  · by_cases hok : GenesisAssertionsHold E
    · obtain ⟨s0, h⟩ := (staticInit_total E fuel).1 hok
      rw [h]
      simp
    · rw [(staticInit_total E fuel).2 hok]
      simp
  · by_cases hok : GenesisAssertionsHold E
    · obtain ⟨s0, h⟩ := (staticInit_total E fuel).1 hok
      rw [h]
      simp
    · rw [(staticInit_total E fuel).2 hok]
      simp
  · intro s0 s hinit hreach
    obtain ⟨⟨hm, ht, hr, hu⟩, _⟩ := Reachable.genesis E fuel s0 s hinit hreach
    rw [hm, ht, hr, hu]
    exact ⟨⟨rfl, rfl⟩, ⟨rfl, rfl⟩, ⟨rfl, rfl⟩, ⟨rfl, rfl⟩⟩

/-- Witness of C18: on the sample platform, with RegTest selected, the
regression-test genesis block has nonce 1 and timestamp 1581171338. -/
theorem regenerate_off_search_unreached_witness :
    sampleSelected.regTestParams.genesis.nNonce = 1
    ∧ sampleSelected.regTestParams.genesis.nTime = 1581171338 :=
  ((regenerate_off_search_unreached samplePlatform 0).2.2.2.2.2 sampleRegistry sampleSelected
    (by rfl) (Reachable.step (.SelectParams .REGTEST) Reachable.init (by rfl))).2.2.2

/-- C19: the compact difficulty field 0x207fffff has exponent 0x20 and
mantissa 0x7fffff and expands, as mantissa * 256^(exponent - 3), to the
target 2^255 - 2^232; the proof-of-work limit `~uint256(0) >> 1` is
2^255 - 1; and in every state the program can be in, each of the four
objects has a genesis block with `nBits = 0x207fffff` and the proof-of-work
limit 2^255 - 1, so the genesis target does not exceed the limit. -/
theorem genesis_target_within_limit :
    (0x207fffff / 2 ^ 24 % 256 = 0x20 ∧ 0x207fffff % 2 ^ 24 = 0x7fffff
      ∧ SetCompact 0x207fffff = 0x7fffff * 256 ^ (0x20 - 3)
      ∧ SetCompact 0x207fffff = 2 ^ 255 - 2 ^ 232
      ∧ (2 ^ 256 - 1) / 2 = 2 ^ 255 - 1)
    ∧ (∀ (E : Platform) (fuel : Nat) (s0 s : Registry), staticInit E fuel = .ret s0 →
        Reachable E s0 s → ∀ p : Instance,
          (s.obj p).genesis.nBits = 0x207fffff
          ∧ (s.obj p).bnProofOfWorkLimit = 2 ^ 255 - 1
          ∧ SetCompact (s.obj p).genesis.nBits = 2 ^ 255 - 2 ^ 232
          ∧ SetCompact (s.obj p).genesis.nBits ≤ (s.obj p).bnProofOfWorkLimit) := by
  have hcompact : SetCompact 0x207fffff = 2 ^ 255 - 2 ^ 232 := by decide
  have hlimit : (2 ^ 256 - 1) / 2 = 2 ^ 255 - 1 := by decide
  refine ⟨⟨by decide, by decide, by decide, hcompact, hlimit⟩, ?_⟩
  intro E fuel s0 s hinit hreach p
  obtain ⟨⟨hm, ht, hr, hu⟩, hall⟩ := Reachable.genesis E fuel s0 s hinit hreach
  have hbits : (s.obj p).genesis.nBits = 0x207fffff := by
    cases p with
    | mainParams => simp only [Registry.obj]; rw [hm]; rfl
    | testNetParams => simp only [Registry.obj]; rw [ht]; rfl
    | regTestParams => simp only [Registry.obj]; rw [hr]; rfl
    | unitTestParams => simp only [Registry.obj]; rw [hu]; rfl
  have hlim : (s.obj p).bnProofOfWorkLimit = 2 ^ 255 - 1 := by
    rw [(hall p).2.2.2, hlimit]
  refine ⟨hbits, hlim, by rw [hbits, hcompact], ?_⟩
  rw [hbits, hcompact, hlim]
  decide

/-- Witness of C19: on the sample platform, with RegTest selected, the
target of the regression-test genesis block is within that object's
proof-of-work limit. -/
theorem genesis_target_within_limit_witness :
    SetCompact (sampleSelected.obj .regTestParams).genesis.nBits
      ≤ (sampleSelected.obj .regTestParams).bnProofOfWorkLimit :=
  (genesis_target_within_limit.2 samplePlatform 0 sampleRegistry sampleSelected (by rfl)
    (Reachable.step (.SelectParams .REGTEST) Reachable.init (by rfl)) .regTestParams).2.2.2

/-- The function on a file of at least four bytes whose first four are not
the magic bytes of the current object. -/
theorem VerifyGenesisBlock_wrong_magic (E : Platform)
    (fopen : String → Option (List Byte)) (s : Registry) (datadir : String)
    (genesisHash : uint256) (cur : Instance) (m0 m1 m2 m3 : Byte) (tail : List Byte)
    (hsel : Params s = .ret cur)
    (hfile : fopen (datadir ++ "/blocks/blk00000.dat") = some ([m0, m1, m2, m3] ++ tail))
    (hmagic : [m0, m1, m2, m3] ≠ (s.obj cur).pchMessageStart.bytes) :
    VerifyGenesisBlock E fopen s datadir genesisHash
      = .ret (.failure (.invalidMagic [m0, m1, m2, m3]
          (datadir ++ "/blocks/blk00000.dat"))) := by
  unfold VerifyGenesisBlock
  simp only [hfile, List.cons_append, List.nil_append, Option.isNone_some, CAutoFile.IsNull,
    CAutoFile.read_four, hsel, Run.bind]
  simp only [ne_eq, hmagic, not_false_eq_true, if_true, Bool.false_eq_true, if_false]

/-- C20: two block files that agree in their first four bytes and in every
byte after the length prefix, with both length prefixes between 80 and
2,000,000, get the same result from `VerifyGenesisBlock` in the same state
and with the same expected hash: the length only passes the range check. -/
theorem VerifyGenesisBlock_length_only_gates (E : Platform)
    (fopen fopen1 : String → Option (List Byte)) (s : Registry) (datadir : String)
    (genesisHash : uint256) (m0 m1 m2 m3 l0 l1 l2 l3 k0 k1 k2 k3 : Byte) (body : List Byte)
    (hfile : fopen (datadir ++ "/blocks/blk00000.dat")
      = some ([m0, m1, m2, m3] ++ [l0, l1, l2, l3] ++ body))
    (hfile1 : fopen1 (datadir ++ "/blocks/blk00000.dat")
      = some ([m0, m1, m2, m3] ++ [k0, k1, k2, k3] ++ body))
    (hl : 80 ≤ ReadLE32 l0 l1 l2 l3 ∧ ReadLE32 l0 l1 l2 l3 ≤ 2000000)
    (hk : 80 ≤ ReadLE32 k0 k1 k2 k3 ∧ ReadLE32 k0 k1 k2 k3 ≤ 2000000) :
    VerifyGenesisBlock E fopen s datadir genesisHash
      = VerifyGenesisBlock E fopen1 s datadir genesisHash := by
  cases hcur : s.pCurrentParams with
  | none =>
    unfold VerifyGenesisBlock
    simp only [hfile, hfile1, List.cons_append, List.nil_append, Option.isNone_some,
      CAutoFile.IsNull, CAutoFile.read_four, Params, hcur, Run.bind]
  | some cur =>
    have hsel : Params s = .ret cur := by simp [Params, hcur]
    by_cases hmagic : [m0, m1, m2, m3] = (s.obj cur).pchMessageStart.bytes
    · rw [hmagic] at hfile hfile1
      rw [VerifyGenesisBlock_after_magic E fopen s datadir genesisHash cur l0 l1 l2 l3 body
          hsel hfile,
        VerifyGenesisBlock_after_magic E fopen1 s datadir genesisHash cur k0 k1 k2 k3 body
          hsel hfile1]
      have h1 : ¬ (ReadLE32 l0 l1 l2 l3 < 80 ∨ ReadLE32 l0 l1 l2 l3 > 2000000) := by omega
      have h2 : ¬ (ReadLE32 k0 k1 k2 k3 < 80 ∨ ReadLE32 k0 k1 k2 k3 > 2000000) := by omega
      simp only [h1, h2, if_false]
    · rw [VerifyGenesisBlock_wrong_magic E fopen s datadir genesisHash cur m0 m1 m2 m3
          ([l0, l1, l2, l3] ++ body) hsel hfile hmagic,
        VerifyGenesisBlock_wrong_magic E fopen1 s datadir genesisHash cur m0 m1 m2 m3
          ([k0, k1, k2, k3] ++ body) hsel (by rw [hfile1, List.append_assoc]) hmagic]

/-- Witness of C20: on the sample platform the regression-test block file
gets the same result with the length prefix 80 as with 2,000,000. -/
theorem VerifyGenesisBlock_length_only_gates_witness :
    VerifyGenesisBlock samplePlatform (sampleFopen sampleBlockFile) sampleSelected "/data"
        0x6a7fd108b4ef0aab9ce43734d66a04dc83ac4c49a5b3a3e23387dbfcdcaca765
      = VerifyGenesisBlock samplePlatform
          (sampleFopen [0x54, 0x14, 0x64, 0x95, 0x80, 0x84, 0x1E, 0, 0x8A, 0xC2, 0x3E, 0x5E, 1])
          sampleSelected "/data"
          0x6a7fd108b4ef0aab9ce43734d66a04dc83ac4c49a5b3a3e23387dbfcdcaca765 :=
  VerifyGenesisBlock_length_only_gates samplePlatform (sampleFopen sampleBlockFile)
    (sampleFopen [0x54, 0x14, 0x64, 0x95, 0x80, 0x84, 0x1E, 0, 0x8A, 0xC2, 0x3E, 0x5E, 1])
    sampleSelected "/data" 0x6a7fd108b4ef0aab9ce43734d66a04dc83ac4c49a5b3a3e23387dbfcdcaca765
    0x54 0x14 0x64 0x95 80 0 0 0 0x80 0x84 0x1E 0 [0x8A, 0xC2, 0x3E, 0x5E, 1]
    (by rfl) (by rfl) (by decide) (by decide)

/-! ## Magic bytes across networks: lemmas and the claims -/

/-- The message-start bytes of a main object that has been constructed. -/
theorem CMainParams_magic (E : Platform) (fuel k : Nat) (pk : CChainParams × Nat)
    (h : CMainParams E fuel k = .ret pk) :
    pk.1.pchMessageStart = { b0 := 0x25, b1 := 0x65, b2 := 0x72, b3 := 0x34 } := by
  unfold CMainParams at h
  obtain ⟨gh, _, h2⟩ := Run.bind_eq_ret _ _ _ h
  simp only [Run.ret.injEq] at h2
  subst h2
  rfl

/-- The message-start bytes of a test-network object that has been
constructed. -/
theorem CTestNetParams_magic (E : Platform) (fuel k : Nat) (pk : CChainParams × Nat)
    (h : CTestNetParams E fuel k = .ret pk) :
    pk.1.pchMessageStart = { b0 := 0xce, b1 := 0xff, b2 := 0xca, b3 := 0x44 } := by
  unfold CTestNetParams at h
  obtain ⟨m, _, h2⟩ := Run.bind_eq_ret _ _ _ h
  unfold CTestNetParams.body at h2
  obtain ⟨gh, _, h3⟩ := Run.bind_eq_ret _ _ _ h2
  simp only [Run.ret.injEq] at h3
  subst h3
  rfl

/-- The message-start bytes of a regression-test object that has been
constructed. -/
theorem CRegTestParams_magic (E : Platform) (fuel k : Nat) (pk : CChainParams × Nat)
    (h : CRegTestParams E fuel k = .ret pk) :
    pk.1.pchMessageStart = { b0 := 0x54, b1 := 0x14, b2 := 0x64, b3 := 0x95 } := by
  unfold CRegTestParams at h
  obtain ⟨t, _, h2⟩ := Run.bind_eq_ret _ _ _ h
  unfold CRegTestParams.body at h2
  obtain ⟨gh, _, h3⟩ := Run.bind_eq_ret _ _ _ h2
  simp only [regenerate, Bool.false_eq_true, if_false, Run.ret.injEq] at h3
  subst h3
  rfl

/-- The message-start bytes of the four objects in a reachable state; the
unit-test object has those of the main object. -/
theorem Reachable.magic (E : Platform) (fuel : Nat) (s0 s : Registry)
    (hinit : staticInit E fuel = .ret s0) (hreach : Reachable E s0 s) :
    s.mainParams.pchMessageStart = { b0 := 0x25, b1 := 0x65, b2 := 0x72, b3 := 0x34 }
    ∧ s.testNetParams.pchMessageStart = { b0 := 0xce, b1 := 0xff, b2 := 0xca, b3 := 0x44 }
    ∧ s.regTestParams.pchMessageStart = { b0 := 0x54, b1 := 0x14, b2 := 0x64, b3 := 0x95 }
    ∧ s.unitTestParams.pchMessageStart
        = { b0 := 0x25, b1 := 0x65, b2 := 0x72, b3 := 0x34 } := by
  obtain ⟨m, t, r, u, k1, k2, k3, hm, ht, hr, hu, hs0⟩ := staticInit_parts E fuel s0 hinit
  obtain ⟨fm, ft, fr, a, b, c, d, e, f, fu⟩ := Reachable.frame E s0 s hreach
  have hunit := CUnitTestParams_from_main E fuel 0 fuel k3 m u hm hu
  have mm := CMainParams_magic E fuel 0 m hm
  have tm := CTestNetParams_magic E fuel k1 t ht
  have rm := CRegTestParams_magic E fuel k2 r hr
  subst hs0
  simp only at fm ft fr fu
  refine ⟨by rw [fm]; exact mm, by rw [ft]; exact tm, by rw [fr]; exact rm, ?_⟩
  rw [fu, hunit]
  exact mm

/-- The function reads the state only through `Params()` and the
message-start bytes of the object it returns. -/
theorem VerifyGenesisBlock_reads_magic_only (E : Platform)
    (fopen : String → Option (List Byte)) (s s1 : Registry) (datadir : String)
    (genesisHash : uint256) (a b : Instance)
    (ha : Params s = .ret a) (hb : Params s1 = .ret b)
    (hmagic : (s.obj a).pchMessageStart = (s1.obj b).pchMessageStart) :
    VerifyGenesisBlock E fopen s datadir genesisHash
      = VerifyGenesisBlock E fopen s1 datadir genesisHash := by
  unfold VerifyGenesisBlock
  simp only [ha, hb, Run.bind, hmagic]

/-- C21: in every state the program can be in, the message-start bytes of
Main are 25 65 72 34, of Test ce ff ca 44 and of RegTest 54 14 64 95, three
pairwise distinct sequences; so with one of these three networks active, a
block file that opens and begins with the magic of another of them is
rejected by `VerifyGenesisBlock` with the invalid-magic error, whatever
follows the magic. -/
theorem distinct_magic_rejects_other_network (E : Platform) (fuel : Nat) (s0 s : Registry)
    (hinit : staticInit E fuel = .ret s0) (hreach : Reachable E s0 s) :
    ((s.obj .mainParams).pchMessageStart.bytes = [0x25, 0x65, 0x72, 0x34]
      ∧ (s.obj .testNetParams).pchMessageStart.bytes = [0xce, 0xff, 0xca, 0x44]
      ∧ (s.obj .regTestParams).pchMessageStart.bytes = [0x54, 0x14, 0x64, 0x95])
    ∧ ((s.obj .mainParams).pchMessageStart.bytes ≠ (s.obj .testNetParams).pchMessageStart.bytes
      ∧ (s.obj .mainParams).pchMessageStart.bytes
          ≠ (s.obj .regTestParams).pchMessageStart.bytes
      ∧ (s.obj .testNetParams).pchMessageStart.bytes
          ≠ (s.obj .regTestParams).pchMessageStart.bytes)
    ∧ (∀ (active other : Instance), active ≠ .unitTestParams → other ≠ .unitTestParams →
        active ≠ other → Params s = .ret active →
        ∀ (fopen : String → Option (List Byte)) (datadir : String) (genesisHash : uint256)
          (tail : List Byte),
          fopen (datadir ++ "/blocks/blk00000.dat")
            = some ((s.obj other).pchMessageStart.bytes ++ tail) →
          VerifyGenesisBlock E fopen s datadir genesisHash
            = .ret (.failure (.invalidMagic (s.obj other).pchMessageStart.bytes
                (datadir ++ "/blocks/blk00000.dat")))) := by
  obtain ⟨hm, ht, hr, _⟩ := Reachable.magic E fuel s0 s hinit hreach
  have bm : (s.obj .mainParams).pchMessageStart.bytes = [0x25, 0x65, 0x72, 0x34] := by
    simp only [Registry.obj, hm]; rfl
  have bt : (s.obj .testNetParams).pchMessageStart.bytes = [0xce, 0xff, 0xca, 0x44] := by
    simp only [Registry.obj, ht]; rfl
  have br : (s.obj .regTestParams).pchMessageStart.bytes = [0x54, 0x14, 0x64, 0x95] := by
    simp only [Registry.obj, hr]; rfl
  refine ⟨⟨bm, bt, br⟩, ⟨by rw [bm, bt]; decide, by rw [bm, br]; decide,
    by rw [bt, br]; decide⟩, ?_⟩
  intro active other hau hou hne hsel fopen datadir genesisHash tail hfile
  cases active with
  | unitTestParams => exact absurd rfl hau
  | mainParams =>
    cases other with
    | unitTestParams => exact absurd rfl hou
    | mainParams => exact absurd rfl hne
    | testNetParams =>
      rw [bt] at hfile ⊢
      exact VerifyGenesisBlock_wrong_magic E fopen s datadir genesisHash .mainParams _ _ _ _
        tail hsel hfile (by rw [bm]; decide)
    | regTestParams =>
      rw [br] at hfile ⊢
      exact VerifyGenesisBlock_wrong_magic E fopen s datadir genesisHash .mainParams _ _ _ _
        tail hsel hfile (by rw [bm]; decide)
  | testNetParams =>
    cases other with
    | unitTestParams => exact absurd rfl hou
    | testNetParams => exact absurd rfl hne
    | mainParams =>
      rw [bm] at hfile ⊢
      exact VerifyGenesisBlock_wrong_magic E fopen s datadir genesisHash .testNetParams _ _ _ _
        tail hsel hfile (by rw [bt]; decide)
    | regTestParams =>
      rw [br] at hfile ⊢
      exact VerifyGenesisBlock_wrong_magic E fopen s datadir genesisHash .testNetParams _ _ _ _
        tail hsel hfile (by rw [bt]; decide)
  | regTestParams =>
    cases other with
    | unitTestParams => exact absurd rfl hou
    | regTestParams => exact absurd rfl hne
    | mainParams =>
      rw [bm] at hfile ⊢
      exact VerifyGenesisBlock_wrong_magic E fopen s datadir genesisHash .regTestParams _ _ _ _
        tail hsel hfile (by rw [br]; decide)
    | testNetParams =>
      rw [bt] at hfile ⊢
      exact VerifyGenesisBlock_wrong_magic E fopen s datadir genesisHash .regTestParams _ _ _ _
        tail hsel hfile (by rw [br]; decide)

/-- Witness of C21: on the sample platform, with RegTest active, a block
file that begins with the magic of Main is rejected with the invalid-magic
error. -/
theorem distinct_magic_rejects_other_network_witness :
    VerifyGenesisBlock samplePlatform
        (sampleFopen [0x25, 0x65, 0x72, 0x34, 80, 0, 0, 0, 0x06, 0x64, 0x6d, 0x5e, 0])
        sampleSelected "/data"
        0x30ef80527cafd9e8685412f85e30efc2ffbfa15398c2852fe5ba0ace7f6cb741
      = .ret (.failure (.invalidMagic (sampleSelected.obj .mainParams).pchMessageStart.bytes
          "/data/blocks/blk00000.dat")) :=
  (distinct_magic_rejects_other_network samplePlatform 0 sampleRegistry sampleSelected
      (by rfl) (Reachable.step (.SelectParams .REGTEST) Reachable.init (by rfl))).2.2
    .regTestParams .mainParams (by decide) (by decide) (by decide) (by rfl)
    (sampleFopen [0x25, 0x65, 0x72, 0x34, 80, 0, 0, 0, 0x06, 0x64, 0x6d, 0x5e, 0])
    "/data" 0x30ef80527cafd9e8685412f85e30efc2ffbfa15398c2852fe5ba0ace7f6cb741
    [80, 0, 0, 0, 0x06, 0x64, 0x6d, 0x5e, 0] (by rfl)

/-- C22: in the states the program can be in, the unit-test object has the
message-start bytes, the genesis block and the genesis hash of the main
object; so for every block file, data directory and expected hash,
`VerifyGenesisBlock` returns the same result with UnitTest active as with
Main active. -/
theorem unitTest_verifies_as_main (E : Platform) (fuel : Nat) (s0 s1 s2 : Registry)
    (hinit : staticInit E fuel = .ret s0)
    (hreach1 : Reachable E s0 s1) (hreach2 : Reachable E s0 s2)
    (hunit : Params s1 = .ret .unitTestParams) (hmain : Params s2 = .ret .mainParams) :
    (s1.obj .unitTestParams).pchMessageStart = (s2.obj .mainParams).pchMessageStart
    ∧ (s1.obj .unitTestParams).genesis = (s2.obj .mainParams).genesis
    ∧ (s1.obj .unitTestParams).hashGenesisBlock = (s2.obj .mainParams).hashGenesisBlock
    ∧ (∀ (fopen : String → Option (List Byte)) (datadir : String) (genesisHash : uint256),
        VerifyGenesisBlock E fopen s1 datadir genesisHash
          = VerifyGenesisBlock E fopen s2 datadir genesisHash) := by
  obtain ⟨_, _, _, hu1⟩ := Reachable.magic E fuel s0 s1 hinit hreach1
  obtain ⟨hm2, _, _, _⟩ := Reachable.magic E fuel s0 s2 hinit hreach2
  obtain ⟨⟨_, _, _, gu1⟩, hall1⟩ := Reachable.genesis E fuel s0 s1 hinit hreach1
  obtain ⟨⟨gm2, _, _, _⟩, hall2⟩ := Reachable.genesis E fuel s0 s2 hinit hreach2
  have hmagic : (s1.obj .unitTestParams).pchMessageStart
      = (s2.obj .mainParams).pchMessageStart := by
    simp only [Registry.obj]
    rw [hu1, hm2]
  refine ⟨hmagic, ?_, ?_, ?_⟩
  · simp only [Registry.obj]
    rw [gu1, gm2]
  · rw [(hall1 .unitTestParams).1, (hall2 .mainParams).1]
    rfl
  · intro fopen datadir genesisHash
    exact VerifyGenesisBlock_reads_magic_only E fopen s1 s2 datadir genesisHash
      .unitTestParams .mainParams hunit hmain hmagic

/-- Witness of C22: on the sample platform a block file with the magic of
Main and the main genesis block is accepted with UnitTest active, as it is
with Main active. -/
theorem unitTest_verifies_as_main_witness :
    VerifyGenesisBlock samplePlatform
        (sampleFopen [0x25, 0x65, 0x72, 0x34, 80, 0, 0, 0, 0x06, 0x64, 0x6d, 0x5e, 0])
        sampleUnitTestSelected "/data"
        0x30ef80527cafd9e8685412f85e30efc2ffbfa15398c2852fe5ba0ace7f6cb741
      = VerifyGenesisBlock samplePlatform
        (sampleFopen [0x25, 0x65, 0x72, 0x34, 80, 0, 0, 0, 0x06, 0x64, 0x6d, 0x5e, 0])
        sampleMainSelected "/data"
        0x30ef80527cafd9e8685412f85e30efc2ffbfa15398c2852fe5ba0ace7f6cb741
    ∧ VerifyGenesisBlock samplePlatform
        (sampleFopen [0x25, 0x65, 0x72, 0x34, 80, 0, 0, 0, 0x06, 0x64, 0x6d, 0x5e, 0])
        sampleUnitTestSelected "/data"
        0x30ef80527cafd9e8685412f85e30efc2ffbfa15398c2852fe5ba0ace7f6cb741
      = .ret .success :=
  ⟨(unitTest_verifies_as_main samplePlatform 0 sampleRegistry sampleUnitTestSelected
      sampleMainSelected (by rfl)
      (Reachable.step (.SelectParams .UNITTEST) Reachable.init (by rfl))
      (Reachable.step (.SelectParams .MAIN) Reachable.init (by rfl))
      (by rfl) (by rfl)).2.2.2
      (sampleFopen [0x25, 0x65, 0x72, 0x34, 80, 0, 0, 0, 0x06, 0x64, 0x6d, 0x5e, 0]) "/data"
      0x30ef80527cafd9e8685412f85e30efc2ffbfa15398c2852fe5ba0ace7f6cb741,
   by rfl⟩

end ChainParams
